import Mathlib

/-!
The chat relay of `src/server/server.js`

A shallow embedding of the WebSocket part of the server: the two pure helpers
`isComplexMessage` and `getBotResponse`, and the `message` and `close` handlers
that `wss.on('connection', ...)` installs on every socket.

* A JavaScript string is modelled by the list of its Unicode code points.  The
  texts the server handles are decoded frames and literals, hence well formed,
  and on well-formed strings the code-unit operations used by the source
  (`includes`, `startsWith`, `split`) agree with the code-point ones below.
  Only `length` counts code units, see `jsLength`.
* `String.prototype.toLowerCase` belongs to the language, not to the
  repository.  Every definition takes it as the argument `lower`; the concrete
  `toLowerCase` below is used when a definition is evaluated on a given text.
* A handler returns the new registry together with the ordered list of its
  side effects (`Effect`): each `client.send(frame)` and each `saveMessage` call.
-/

namespace Aula

/-! ## Strings -/

/-- A JavaScript string, as the list of its code points. -/
abbrev Str := List Char

/-- The property `s.length`: the number of UTF-16 code units of `s`. -/
def jsLength (s : Str) : Nat :=
  (s.map fun c => if c.toNat < 65536 then 1 else 2).sum

/-- The method `s.startsWith(p)`. -/
def startsWith : Str → Str → Bool
  | _, [] => true
  | [], _ :: _ => false
  | c :: s, d :: p => c == d && startsWith s p

/-- The method `s.includes(t)`: `t` occurs in `s` as a contiguous block. -/
def includes : Str → Str → Bool
  | [], t => startsWith [] t
  | c :: s, t => startsWith (c :: s) t || includes s t

/-- Worker of `split`: scans the text left to right.  `cur` is the current piece
(reversed) and `skip` the number of characters of an already matched separator
that are still to be passed over. -/
def splitGo (sep : Str) : Str → Str → Nat → List Str
  | [], cur, _ => [cur.reverse]
  | _ :: s, cur, skip + 1 => splitGo sep s cur skip
  | c :: s, cur, 0 =>
    if startsWith (c :: s) sep then cur.reverse :: splitGo sep s [] (sep.length - 1)
    else splitGo sep s (c :: cur) 0

/-- The method `s.split(sep)` for a non-empty separator (the source only uses
`' '`, `':'` and `': '`): the pieces between the successive occurrences of `sep`. -/
def split (s sep : Str) : List Str :=
  splitGo sep s [] 0

/-- Lower-casing of one code point of Basic Latin or Latin-1 Supplement. -/
def lowerChar (c : Char) : Char :=
  if (65 ≤ c.toNat ∧ c.toNat ≤ 90) ∨ (192 ≤ c.toNat ∧ c.toNat ≤ 222 ∧ c.toNat ≠ 215) then
    Char.ofNat (c.toNat + 32)
  else c

/-- The method `s.toLowerCase()` on texts of Basic Latin and Latin-1 Supplement
(all the literals of the source and of the specification are of this kind);
other code points are left as they are. -/
def toLowerCase (s : Str) : Str :=
  s.map lowerChar

/-- The value of `v || d` for a string-or-undefined `v`: `undefined` and the
empty string are falsy. -/
def orElse (v : Option Str) (d : Str) : Str :=
  match v with
  | some (c :: cs) => c :: cs
  | _ => d

/-- The text a template literal interpolates for a string-or-undefined value. -/
def interpolate (v : Option Str) : Str :=
  match v with
  | some s => s
  | none => "undefined".toList

/-! ## The pure helpers -/

/-- The array `complexKeywords` of `isComplexMessage`. -/
def complexKeywords : List Str :=
  ["ajuda".toList, "problema".toList, "como fazer".toList, "explicar".toList,
   "dúvida".toList, "não sei".toList, "entender".toList, "preciso de".toList,
   "como posso".toList, "resolver".toList]

/-- The constant `isLongMessage` of `isComplexMessage`. -/
def isLongMessage (message : Str) : Bool :=
  decide (jsLength message > 50) || decide ((split message " ".toList).length > 10)

/-- The constant `isQuestion` of `isComplexMessage`, on the lower-cased text. -/
def isQuestion (msg : Str) : Bool :=
  includes msg "?".toList || includes msg "como".toList || includes msg "por que".toList ||
    includes msg "qual".toList || includes msg "o que".toList

/-- The constant `isSimpleMessage` of `isComplexMessage`, on the lower-cased text. -/
def isSimpleMessage (msg : Str) : Bool :=
  includes msg "oi".toList || includes msg "olá".toList || includes msg "tchau".toList ||
    includes msg "até logo".toList

/-- The function `isComplexMessage(message)`. -/
def isComplexMessage (lower : Str → Str) (message : Str) : Bool :=
  let msg := lower message
  (isLongMessage message || isQuestion msg || complexKeywords.any fun keyword => includes msg keyword)
    && !isSimpleMessage msg

/-- The function `getBotResponse(message, username)`; `none` is `null`. -/
def getBotResponse (lower : Str → Str) (message username : Str) : Option Str :=
  let msg := lower message
  if includes msg "oi".toList || includes msg "olá".toList then
    some ("Bot: Olá, ".toList ++ username ++ "! Como posso ajudar?".toList)
  else if includes msg "tchau".toList || includes msg "até logo".toList then
    some ("Bot: Até logo, ".toList ++ username ++ "!".toList)
  else if includes msg "qual é a capital do brasil".toList then
    some ("Bot: A capital do Brasil é Brasília, ".toList ++ username ++ "!".toList)
  else none

/-! ## The registry and the handlers -/

/-- The identity of a socket object `ws`: sockets are numbered in the order in
which the server accepted them. -/
abbrev ConnId := Nat

/-- A row of the `messages` table, as `loadMessageHistory` hands it over. -/
structure Row where
  username : Str
  message : Str
  sender : Str
  timestamp : Str
  deriving DecidableEq, Repr

/-- An observable action of a handler: `client.send(frame)`, or the call
`saveMessage(username, message, sender)`; `none` is an argument that is
`undefined`. -/
inductive Effect where
  | send (client : ConnId) (frame : Str)
  | saveMessage (username : Option Str) (message : Option Str) (sender : Str)
  deriving DecidableEq, Repr

/-- The mutable state the handlers read and write.

* `wssClients` is the set `wss.clients`, in insertion order;
* `openConns` are the sockets whose `readyState` is `WebSocket.OPEN`;
* `clients` is the map `clients` (socket to username), in insertion order;
* `admin` is the variable `admin` (`none` is `null`);
* `nextId` is the identity the next accepted socket gets. -/
structure State where
  wssClients : List ConnId
  openConns : List ConnId
  clients : List (ConnId × Str)
  admin : Option ConnId
  nextId : Nat
  deriving DecidableEq, Repr

/-- The test `client.readyState === WebSocket.OPEN`. -/
def State.isOpen (s : State) (client : ConnId) : Bool :=
  s.openConns.contains client

/-- The call `clients.get(ws)`; `none` is `undefined`. -/
def mapGet : List (ConnId × Str) → ConnId → Option Str
  | [], _ => none
  | (k, v) :: m, ws => if k = ws then some v else mapGet m ws

/-- The call `clients.set(ws, username)`: an existing key keeps its place. -/
def mapSet : List (ConnId × Str) → ConnId → Str → List (ConnId × Str)
  | [], ws, username => [(ws, username)]
  | (k, v) :: m, ws, username =>
    if k = ws then (k, username) :: m else (k, v) :: mapSet m ws username

/-- The call `clients.delete(ws)`. -/
def mapDelete (m : List (ConnId × Str)) (ws : ConnId) : List (ConnId × Str) :=
  m.filter fun kv => decide (kv.1 ≠ ws)

/-- The loop `wss.clients.forEach(client => client !== x && client.readyState
=== WebSocket.OPEN && client.send(frame))`, where `x` is a socket or `null`. -/
def broadcast (s : State) (x : Option ConnId) (frame : Str) : List Effect :=
  (s.wssClients.filter fun client => decide (some client ≠ x) && s.isOpen client).map
    fun client => Effect.send client frame

/-- The label used for a socket without a username. -/
def anonymous : Str := "Usuário Anônimo".toList

/-- The handler `ws.on('message', ...)` of socket `ws` for the frame `msg`.
`rows` is what the persistence sink passes to the callback of
`loadMessageHistory` (the empty list on an error); the replay it triggers is
recorded with the handler that asked for it. -/
def onMessage (lower : Str → Str) (s : State) (ws : ConnId) (msg : Str) (rows : List Row) :
    State × List Effect :=
  if startsWith msg "IDENTIFY:".toList then
    let identifier := (split msg ":".toList)[1]?
    if identifier = some "ADMIN".toList then
      ({ s with admin := some ws },
        Effect.send ws "Bot: Você está conectado como administrador.".toList ::
          rows.map fun row => Effect.send ws (row.sender ++ ": ".toList ++ row.message))
    else
      let username := orElse identifier anonymous
      let s1 := { s with clients := mapSet s.clients ws username }
      let joinMessage := "Bot: ".toList ++ username ++ " entrou no chat.".toList
      (s1,
        Effect.send ws ("Bot: Bem-vindo, ".toList ++ username ++ "!".toList) ::
          (broadcast s1 (some ws) joinMessage ++
            [Effect.saveMessage (some username) (some joinMessage) "bot".toList]))
  else
    let username := orElse (mapGet s.clients ws) anonymous
    let userMessage := username ++ ": ".toList ++ msg
    let relay := broadcast s s.admin userMessage ++
      [Effect.saveMessage (some username) (some msg) "user".toList]
    if some ws = s.admin then
      let adminMessage := "Admin: ".toList ++ msg
      (s, relay ++ (broadcast s s.admin adminMessage ++
        [Effect.saveMessage (some "Admin".toList) (some msg) "admin".toList]))
    else
      let botResponse := getBotResponse lower msg username
      if orElse botResponse [] ≠ [] then
        (s, relay ++ (broadcast s s.admin (orElse botResponse []) ++
          [Effect.saveMessage (some "Bot".toList)
            ((split (orElse botResponse []) ": ".toList)[1]?) "bot".toList]))
      else if isComplexMessage lower msg then
        let notifyUser := "Bot: ".toList ++ username ++
          ", sua mensagem é complexa. Encaminhando ao administrador!".toList
        let escalation :=
          match s.admin with
          | some a =>
            if s.isOpen a then
              [Effect.send a ("Mensagem de ".toList ++ username ++ ": ".toList ++ msg)]
            else
              broadcast s s.admin ("Bot: Desculpe, ".toList ++ username ++
                ", nenhum administrador disponível.".toList)
          | none =>
            broadcast s s.admin ("Bot: Desculpe, ".toList ++ username ++
              ", nenhum administrador disponível.".toList)
        (s, relay ++ (broadcast s s.admin notifyUser ++ (escalation ++
          [Effect.saveMessage (some "Bot".toList) ((split notifyUser ": ".toList)[1]?)
            "bot".toList])))
      else
        (s, relay)

/-- The handler `ws.on('close', ...)` of socket `ws`. -/
def onClose (s : State) (ws : ConnId) : State × List Effect :=
  let username := mapGet s.clients ws
  if some ws = s.admin then
    ({ s with admin := none }, [])
  else
    let s1 := { s with clients := mapDelete s.clients ws }
    let leaveMessage := "Bot: ".toList ++ interpolate username ++ " saiu do chat.".toList
    (s1, broadcast s1 s1.admin leaveMessage ++
      [Effect.saveMessage username (some leaveMessage) "bot".toList])

/-! ## The server as a transition system -/

/-- What can happen to the server between two handler runs. -/
inductive Event where
  /-- A socket is accepted (`wss.on('connection', ...)`). -/
  | connection
  /-- Socket `ws` delivers the frame `msg`; `rows` is the sink's history. -/
  | message (ws : ConnId) (msg : Str) (rows : List Row)
  /-- The transport of `ws` starts closing: its `readyState` leaves `OPEN`. -/
  | closing (ws : ConnId)
  /-- The `close` event of `ws`: the library drops it from `wss.clients`, then
  the handler runs. -/
  | close (ws : ConnId)
  deriving DecidableEq, Repr

/-- The state of a freshly started server. -/
def State.init : State :=
  { wssClients := [], openConns := [], clients := [], admin := none, nextId := 0 }

/-- One event.  Frames and close events only come from sockets that are in
`wss.clients`; any other event leaves the state as it is. -/
def step (lower : Str → Str) (s : State) : Event → State × List Effect
  | .connection =>
    ({ s with wssClients := s.wssClients ++ [s.nextId],
              openConns := s.openConns ++ [s.nextId],
              nextId := s.nextId + 1 }, [])
  | .message ws msg rows =>
    if ws ∈ s.wssClients then onMessage lower s ws msg rows else (s, [])
  | .closing ws => ({ s with openConns := s.openConns.erase ws }, [])
  | .close ws =>
    if ws ∈ s.wssClients then
      onClose { s with wssClients := s.wssClients.erase ws,
                       openConns := s.openConns.erase ws } ws
    else (s, [])

/-- The state after a sequence of events, from a given state. -/
def run (lower : Str → Str) (s : State) : List Event → State
  | [] => s
  | e :: es => run lower (step lower s e).1 es

/-- The states the server can be in. -/
def Reachable (lower : Str → Str) (s : State) : Prop :=
  ∃ es : List Event, run lower State.init es = s

/-- The frames a list of effects sends to `client`, in order. -/
def framesTo (client : ConnId) : List Effect → List Str
  | [] => []
  | Effect.send c frame :: es => if c = client then frame :: framesTo client es else framesTo client es
  | Effect.saveMessage _ _ _ :: es => framesTo client es

/-- The `saveMessage` calls of a list of effects, in order, as triples
`(username, message, sender)`. -/
def saved : List Effect → List (Option Str × Option Str × Str)
  | [] => []
  | Effect.send _ _ :: es => saved es
  | Effect.saveMessage u m k :: es => (u, m, k) :: saved es

/-- The rows that the `saveMessage` calls of a list of effects add to the table
`messages`, in order, as triples `(username, message, sender)`; `id` and
`timestamp` are filled in by the database.  The table is created with
`username TEXT NOT NULL`, `message TEXT NOT NULL` and `sender TEXT NOT NULL`: a
call with an `undefined` argument binds NULL to its column, the `INSERT` is
rejected and `saveMessage` only logs the error. -/
def persisted : List Effect → List (Str × Str × Str)
  | [] => []
  | Effect.send _ _ :: es => persisted es
  | Effect.saveMessage (some u) (some m) k :: es => (u, m, k) :: persisted es
  | Effect.saveMessage _ _ _ :: es => persisted es

/-! ## Vocabulary of the statements -/

/-- The sockets of `wss.clients` that are open and are not the current admin:
the recipients of every loop that tests `client !== admin`. -/
def State.openNonAdmin (s : State) : List ConnId :=
  s.wssClients.filter fun client => decide (some client ≠ s.admin) && s.isOpen client

/-- The sockets of `wss.clients` that are open and are not `ws`: the recipients
of the loop that tests `client !== ws`. -/
def State.openOthers (s : State) (ws : ConnId) : List ConnId :=
  s.wssClients.filter fun client => decide (client ≠ ws) && s.isOpen client

/-- One `send` of `frame` to each of `recipients`, in order. -/
def sendAll (recipients : List ConnId) (frame : Str) : List Effect :=
  recipients.map fun client => Effect.send client frame

/-- The name the router uses for socket `ws`: `clients.get(ws) || 'Usuário Anônimo'`. -/
def State.usernameOf (s : State) (ws : ConnId) : Str :=
  orElse (mapGet s.clients ws) anonymous

/-- No stored username contains a colon. -/
def ColonFree (s : State) : Prop :=
  ∀ kv ∈ s.clients, ':' ∉ kv.2

/-- Socket `a` takes part in the broadcasts: it is in `wss.clients`, it is open
and it is not the current admin. -/
def State.listens (s : State) (a : ConnId) : Prop :=
  a ∈ s.wssClients ∧ s.isOpen a = true ∧ s.admin ≠ some a

/-- The events that cannot take socket `a` out of the broadcasts: all but a
handshake of `a` with the identifier 'ADMIN', the closing of its transport and
its close event. -/
def Event.spares (a : ConnId) : Event → Bool
  | .connection => true
  | .message ws msg _ =>
    !(decide (ws = a) && startsWith msg "IDENTIFY:".toList &&
      decide ((split msg ":".toList)[1]? = some "ADMIN".toList))
  | .closing ws => decide (ws ≠ a)
  | .close ws => decide (ws ≠ a)

/-! ## Lemmas on strings, maps and effects -/

theorem startsWith_append (p t : Str) : startsWith (p ++ t) p = true := by
  induction p with
  | nil => cases t <;> rfl
  | cons c p ih => simp [startsWith, ih]

theorem startsWith_cons_ne {c h : Char} (hne : c ≠ h) (s sep : Str) :
    startsWith (c :: s) (h :: sep) = false := by
  simp [startsWith, hne]

/-- A text without the first character of the separator is a single piece. -/
theorem splitGo_not_mem (h : Char) (sep t : Str) (hn : h ∉ t) (cur : Str) :
    splitGo (h :: sep) t cur 0 = [cur.reverse ++ t] := by
  induction t generalizing cur with
  | nil => simp [splitGo]
  | cons c t ih =>
    have hc : c ≠ h := fun e => hn (by simp [e])
    have ht : h ∉ t := fun e => hn (by simp [e])
    simp [splitGo, startsWith_cons_ne hc, ih ht]

/-- The identifier of a handshake frame whose token has no colon is the token. -/
theorem identifier_of_token (token : Str) (hn : ':' ∉ token) :
    (split ("IDENTIFY:".toList ++ token) ":".toList)[1]? = some token := by
  have h := splitGo_not_mem ':' [] token hn []
  simp [split, splitGo, startsWith, h]

theorem mapGet_mapSet (m : List (ConnId × Str)) (ws : ConnId) (username : Str) :
    mapGet (mapSet m ws username) ws = some username := by
  induction m with
  | nil => simp [mapSet, mapGet]
  | cons kv m ih =>
    obtain ⟨k, v⟩ := kv
    by_cases hk : k = ws
    · simp [mapSet, mapGet, hk]
    · simp [mapSet, mapGet, hk, ih]

theorem framesTo_append (c : ConnId) (e1 e2 : List Effect) :
    framesTo c (e1 ++ e2) = framesTo c e1 ++ framesTo c e2 := by
  induction e1 with
  | nil => rfl
  | cons e e1 ih =>
    cases e with
    | send d f => by_cases hd : d = c <;> simp [framesTo, hd, ih]
    | saveMessage u m k => simpa [framesTo] using ih

theorem saved_append (e1 e2 : List Effect) : saved (e1 ++ e2) = saved e1 ++ saved e2 := by
  induction e1 with
  | nil => rfl
  | cons e e1 ih => cases e <;> simp [saved, ih]

theorem saved_broadcast (s : State) (x : Option ConnId) (f : Str) : saved (broadcast s x f) = [] := by
  unfold broadcast
  induction (s.wssClients.filter fun client => decide (some client ≠ x) && s.isOpen client) with
  | nil => rfl
  | cons c l ih => simpa [saved] using ih

theorem mem_framesTo_map_send (l : List ConnId) (f g : Str) (c : ConnId)
    (hg : g ∈ framesTo c (l.map fun client => Effect.send client f)) : g = f := by
  induction l with
  | nil => simp [framesTo] at hg
  | cons d l ih =>
    by_cases hd : d = c
    · simp only [List.map_cons, framesTo, hd, if_true, List.mem_cons] at hg
      rcases hg with hg | hg
      · exact hg
      · exact ih hg
    · simp only [List.map_cons, framesTo, hd, if_false] at hg
      exact ih hg

/-- A broadcast only ever delivers its own frame. -/
theorem mem_framesTo_broadcast (s : State) (x : Option ConnId) (f g : Str) (c : ConnId)
    (hg : g ∈ framesTo c (broadcast s x f)) : g = f :=
  mem_framesTo_map_send _ f g c hg

/-- A broadcast skips the socket it excludes. -/
theorem framesTo_broadcast_self (s : State) (a : ConnId) (f : Str) :
    framesTo a (broadcast s (some a) f) = [] := by
  unfold broadcast
  induction s.wssClients with
  | nil => rfl
  | cons d l ih =>
    by_cases hd : d = a
    · simpa [List.filter, hd] using ih
    · by_cases ho : s.isOpen d = true
      · simpa [List.filter, hd, ho, framesTo] using ih
      · simpa [List.filter, hd, ho] using ih

theorem framesTo_replay (c ws : ConnId) (hc : c ≠ ws) (rows : List Row) :
    framesTo c (rows.map fun row => Effect.send ws (row.sender ++ ": ".toList ++ row.message)) = [] := by
  induction rows with
  | nil => rfl
  | cons r rows ih => simpa [framesTo, Ne.symm hc] using ih

/-! ## Lemmas on the router -/

theorem broadcast_admin (s : State) (f : Str) :
    broadcast s s.admin f = sendAll s.openNonAdmin f := rfl

theorem broadcast_other (s : State) (ws : ConnId) (f : Str) :
    broadcast s (some ws) f = sendAll (s.openOthers ws) f := by
  unfold broadcast sendAll State.openOthers
  congr 2
  funext client
  simp

theorem saved_sendAll (l : List ConnId) (f : Str) : saved (sendAll l f) = [] := by
  unfold sendAll
  induction l with
  | nil => rfl
  | cons c l ih => simpa [saved] using ih

/-- The admin is not among the recipients of a loop that excludes it. -/
theorem framesTo_sendAll_openNonAdmin (s : State) (a : ConnId) (ha : s.admin = some a) (f : Str) :
    framesTo a (sendAll s.openNonAdmin f) = [] := by
  rw [← broadcast_admin, ha]
  exact framesTo_broadcast_self s a f

/-- A reply of the bot is never the empty string, so `if (botResponse)` tests
whether it is `null`. -/
theorem getBotResponse_truthy (lower : Str → Str) (message username r : Str)
    (h : getBotResponse lower message username = some r) : orElse (some r) [] = r ∧ r ≠ [] := by
  unfold getBotResponse at h
  simp only [] at h
  split_ifs at h <;> simp at h <;> subst h <;> simp [orElse]

/-- A frame that is not a handshake leaves the registry as it is. -/
theorem onMessage_state (lower : Str → Str) (s : State) (ws : ConnId) (msg : Str)
    (rows : List Row) (hmsg : startsWith msg "IDENTIFY:".toList = false) :
    (onMessage lower s ws msg rows).1 = s := by
  unfold onMessage
  simp only [hmsg, Bool.false_eq_true, if_false]
  split_ifs <;> rfl

/-- The effects of a chat frame of the admin. -/
theorem onMessage_admin_effects (lower : Str → Str) (s : State) (ws : ConnId) (msg : Str)
    (rows : List Row) (hmsg : startsWith msg "IDENTIFY:".toList = false)
    (hws : s.admin = some ws) :
    (onMessage lower s ws msg rows).2 =
      sendAll s.openNonAdmin (s.usernameOf ws ++ ": ".toList ++ msg) ++
        [Effect.saveMessage (some (s.usernameOf ws)) (some msg) "user".toList] ++
        (sendAll s.openNonAdmin ("Admin: ".toList ++ msg) ++
          [Effect.saveMessage (some "Admin".toList) (some msg) "admin".toList]) := by
  unfold onMessage
  simp only [hmsg, Bool.false_eq_true, if_false, hws.symm, if_true, broadcast_admin]
  rfl

/-- The effects of a chat frame of another socket that the bot answers. -/
theorem onMessage_bot_effects (lower : Str → Str) (s : State) (ws : ConnId) (msg : Str)
    (rows : List Row) (hmsg : startsWith msg "IDENTIFY:".toList = false)
    (hws : s.admin ≠ some ws) (r : Str)
    (hbot : getBotResponse lower msg (s.usernameOf ws) = some r) :
    (onMessage lower s ws msg rows).2 =
      sendAll s.openNonAdmin (s.usernameOf ws ++ ": ".toList ++ msg) ++
        [Effect.saveMessage (some (s.usernameOf ws)) (some msg) "user".toList] ++
        (sendAll s.openNonAdmin r ++
          [Effect.saveMessage (some "Bot".toList) ((split r ": ".toList)[1]?) "bot".toList]) := by
  have hne : ¬ (some ws = s.admin) := fun e => hws e.symm
  have hbot1 : getBotResponse lower msg (orElse (mapGet s.clients ws) anonymous) = some r := hbot
  obtain ⟨h1, h2⟩ := getBotResponse_truthy lower msg _ r hbot
  unfold onMessage
  simp only [hmsg, Bool.false_eq_true, hne, if_false, hbot1, h1, ne_eq, h2, not_false_eq_true, if_true,
    broadcast_admin]
  rfl

/-- The effects of a chat frame of another socket that the bot does not answer. -/
theorem onMessage_silent_effects (lower : Str → Str) (s : State) (ws : ConnId) (msg : Str)
    (rows : List Row) (hmsg : startsWith msg "IDENTIFY:".toList = false)
    (hws : s.admin ≠ some ws)
    (hbot : getBotResponse lower msg (s.usernameOf ws) = none) :
    (onMessage lower s ws msg rows).2 =
      sendAll s.openNonAdmin (s.usernameOf ws ++ ": ".toList ++ msg) ++
        [Effect.saveMessage (some (s.usernameOf ws)) (some msg) "user".toList] ++
        (if isComplexMessage lower msg = true then
          sendAll s.openNonAdmin ("Bot: ".toList ++ s.usernameOf ws ++
              ", sua mensagem é complexa. Encaminhando ao administrador!".toList) ++
            ((match s.admin with
              | some a =>
                if s.isOpen a = true then
                  [Effect.send a ("Mensagem de ".toList ++ s.usernameOf ws ++ ": ".toList ++ msg)]
                else
                  sendAll s.openNonAdmin ("Bot: Desculpe, ".toList ++ s.usernameOf ws ++
                    ", nenhum administrador disponível.".toList)
              | none =>
                sendAll s.openNonAdmin ("Bot: Desculpe, ".toList ++ s.usernameOf ws ++
                  ", nenhum administrador disponível.".toList)) ++
              [Effect.saveMessage (some "Bot".toList)
                ((split ("Bot: ".toList ++ s.usernameOf ws ++
                  ", sua mensagem é complexa. Encaminhando ao administrador!".toList)
                  ": ".toList)[1]?) "bot".toList])
        else []) := by
  have hne : ¬ (some ws = s.admin) := fun e => hws e.symm
  have hbot1 : getBotResponse lower msg (orElse (mapGet s.clients ws) anonymous) = none := hbot
  have hor : orElse none ([] : Str) = [] := rfl
  unfold onMessage
  simp only [hmsg, Bool.false_eq_true, hne, if_false, hbot1, hor, ne_eq, not_true_eq_false,
    broadcast_admin]
  cases hcx : isComplexMessage lower msg with
  | false =>
    simp only [Bool.false_eq_true, if_false, List.append_nil]
    rfl
  | true =>
    simp only [if_true]
    cases hadm : s.admin with
    | none => rfl
    | some a => by_cases ho : s.isOpen a = true <;> simp only [ho] <;> rfl

/-- The handshake branch of `onMessage`, for a frame that starts with
'IDENTIFY:': what it does to the registry. -/
theorem onMessage_handshake_state (lower : Str → Str) (s : State) (ws : ConnId) (msg : Str)
    (rows : List Row) (hmsg : startsWith msg "IDENTIFY:".toList = true) :
    (onMessage lower s ws msg rows).1 =
      if (split msg ":".toList)[1]? = some "ADMIN".toList then { s with admin := some ws }
      else
        { s with
          clients := mapSet s.clients ws
            (orElse ((split msg ":".toList)[1]?) "Usuário Anônimo".toList) } := by
  unfold onMessage
  simp only [hmsg, if_true]
  split_ifs <;> rfl

theorem framesTo_sendAll_openOthers (s : State) (ws : ConnId) (f : Str) :
    framesTo ws (sendAll (s.openOthers ws) f) = [] := by
  rw [← broadcast_other]
  exact framesTo_broadcast_self s ws f

theorem mem_framesTo_sendAll (l : List ConnId) (c : ConnId) (f : Str) (hc : c ∈ l) :
    f ∈ framesTo c (sendAll l f) := by
  unfold sendAll
  induction l with
  | nil => exact absurd hc (List.not_mem_nil _)
  | cons d l ih =>
    by_cases hd : d = c
    · simp [framesTo, hd]
    · have hcl : c ∈ l := by
        rcases List.mem_cons.1 hc with h | h
        · exact absurd h.symm hd
        · exact h
      simpa [framesTo, hd] using ih hcl

/-- The effects of a handshake that registers a user. -/
theorem onMessage_join_effects (lower : Str → Str) (s : State) (ws : ConnId) (msg : Str)
    (rows : List Row) (hmsg : startsWith msg "IDENTIFY:".toList = true)
    (hid : (split msg ":".toList)[1]? ≠ some "ADMIN".toList) :
    (onMessage lower s ws msg rows).2 =
      Effect.send ws ("Bot: Bem-vindo, ".toList ++
          orElse ((split msg ":".toList)[1]?) "Usuário Anônimo".toList ++ "!".toList) ::
        (sendAll (s.openOthers ws) ("Bot: ".toList ++
            orElse ((split msg ":".toList)[1]?) "Usuário Anônimo".toList ++
            " entrou no chat.".toList) ++
          [Effect.saveMessage (some (orElse ((split msg ":".toList)[1]?) "Usuário Anônimo".toList))
            (some ("Bot: ".toList ++ orElse ((split msg ":".toList)[1]?) "Usuário Anônimo".toList ++
              " entrou no chat.".toList)) "bot".toList]) := by
  unfold onMessage
  simp only [hmsg, if_true, hid, if_false, broadcast_other]
  rfl

/-- The bot has no reply to a text without any of its five patterns. -/
theorem getBotResponse_eq_none (lower : Str → Str) (message username : Str)
    (h : includes (lower message) "oi".toList = false ∧
      includes (lower message) "olá".toList = false ∧
      includes (lower message) "tchau".toList = false ∧
      includes (lower message) "até logo".toList = false ∧
      includes (lower message) "qual é a capital do brasil".toList = false) :
    getBotResponse lower message username = none := by
  obtain ⟨h1, h2, h3, h4, h5⟩ := h
  simp only [getBotResponse, h1, h2, h3, h4, h5, Bool.or_self, Bool.false_eq_true, if_false]

/-! ## Usernames carry no colon -/

/-- Every piece of `split(':')` is free of colons. -/
theorem splitGo_colon_free (t cur : Str) (hcur : ':' ∉ cur) :
    ∀ p ∈ splitGo ":".toList t cur 0, ':' ∉ p := by
  induction t generalizing cur with
  | nil =>
    intro p hp
    simp only [splitGo, List.mem_singleton] at hp
    subst hp
    simpa using hcur
  | cons c t ih =>
    intro p hp
    by_cases hc : c = ':'
    · subst hc
      have hs : startsWith (':' :: t) ":".toList = true := by
        cases t <;> simp [startsWith]
      simp only [splitGo, hs, if_true, List.mem_cons] at hp
      rcases hp with hp | hp
      · subst hp
        simpa using hcur
      · exact ih [] (by simp) p (by simpa using hp)
    · have hs : startsWith (c :: t) ":".toList = false := startsWith_cons_ne hc t []
      simp only [splitGo, hs, Bool.false_eq_true, if_false] at hp
      refine ih (c :: cur) ?_ p hp
      intro hmem
      rcases List.mem_cons.1 hmem with h | h
      · exact hc h.symm
      · exact hcur h

/-- The name a handshake registers is free of colons. -/
theorem handshake_username_colon_free (msg : Str) :
    ':' ∉ orElse ((split msg ":".toList)[1]?) anonymous := by
  cases hid : (split msg ":".toList)[1]? with
  | none => decide
  | some p =>
    have hp : ':' ∉ p :=
      splitGo_colon_free msg [] (by simp) p (List.getElem?_mem hid)
    cases p with
    | nil => decide
    | cons c cs => exact hp

theorem mem_mapSet (m : List (ConnId × Str)) (ws : ConnId) (username : Str) (kv : ConnId × Str)
    (h : kv ∈ mapSet m ws username) : kv ∈ m ∨ kv = (ws, username) := by
  induction m with
  | nil => simpa [mapSet] using h
  | cons e m ih =>
    obtain ⟨k, v⟩ := e
    by_cases hk : k = ws
    · simp only [mapSet, hk, if_true, List.mem_cons] at h
      rcases h with h | h
      · exact Or.inr h
      · exact Or.inl (List.mem_cons_of_mem _ h)
    · simp only [mapSet, hk, if_false, List.mem_cons] at h
      rcases h with h | h
      · exact Or.inl (h ▸ List.mem_cons_self _ _)
      · rcases ih h with h | h
        · exact Or.inl (List.mem_cons_of_mem _ h)
        · exact Or.inr h

theorem mapGet_mem (m : List (ConnId × Str)) (ws : ConnId) (username : Str)
    (h : mapGet m ws = some username) : (ws, username) ∈ m := by
  induction m with
  | nil => simp [mapGet] at h
  | cons e m ih =>
    obtain ⟨k, v⟩ := e
    by_cases hk : k = ws
    · simp only [mapGet, hk, if_true, Option.some.injEq] at h
      simp [hk, h]
    · simp only [mapGet, hk, if_false] at h
      exact List.mem_cons_of_mem _ (ih h)

theorem colonFree_onMessage (lower : Str → Str) (s : State) (ws : ConnId) (msg : Str)
    (rows : List Row) (h : ColonFree s) : ColonFree (onMessage lower s ws msg rows).1 := by
  cases hmsg : startsWith msg "IDENTIFY:".toList with
  | false => rw [onMessage_state lower s ws msg rows hmsg]; exact h
  | true =>
    rw [onMessage_handshake_state lower s ws msg rows hmsg]
    split_ifs
    · exact h
    · intro kv hkv
      rcases mem_mapSet _ _ _ _ hkv with hkv | hkv
      · exact h kv hkv
      · rw [hkv]
        exact handshake_username_colon_free msg

theorem colonFree_onClose (s : State) (ws : ConnId) (h : ColonFree s) :
    ColonFree (onClose s ws).1 := by
  unfold onClose
  simp only []
  split_ifs
  · exact h
  · intro kv hkv
    exact h kv (List.mem_of_mem_filter hkv)

theorem colonFree_step (lower : Str → Str) (s : State) (e : Event) (h : ColonFree s) :
    ColonFree (step lower s e).1 := by
  cases e with
  | connection => exact h
  | message ws msg rows =>
    simp only [step]
    split_ifs
    · exact colonFree_onMessage lower s ws msg rows h
    · exact h
  | closing ws => exact h
  | close ws =>
    simp only [step]
    split_ifs
    · exact colonFree_onClose _ ws h
    · exact h

theorem colonFree_run (lower : Str → Str) (es : List Event) (s : State) (h : ColonFree s) :
    ColonFree (run lower s es) := by
  induction es generalizing s with
  | nil => exact h
  | cons e es ih => exact ih _ (colonFree_step lower s e h)

/-- In a reachable state no stored username contains a colon. -/
theorem colonFree_of_reachable (lower : Str → Str) (s : State) (h : Reachable lower s) :
    ColonFree s := by
  obtain ⟨es, rfl⟩ := h
  exact colonFree_run lower es State.init (fun kv hkv => absurd hkv (List.not_mem_nil _))

/-- In a reachable state the name the router uses for a socket has no colon. -/
theorem usernameOf_colon_free (lower : Str → Str) (s : State) (h : Reachable lower s)
    (ws : ConnId) : ':' ∉ s.usernameOf ws := by
  unfold State.usernameOf
  cases hget : mapGet s.clients ws with
  | none => decide
  | some u =>
    have hu : ':' ∉ u := colonFree_of_reachable lower s h (ws, u) (mapGet_mem _ _ _ hget)
    cases u with
    | nil => decide
    | cons c cs => exact hu

/-- The text persisted for the forwarding notice is the whole notice without
its label, when the name has no colon. -/
theorem split_notifyUser (u : Str) (hu : ':' ∉ u) :
    (split ("Bot: ".toList ++ u ++
        ", sua mensagem é complexa. Encaminhando ao administrador!".toList) ": ".toList)[1]? =
      some (u ++ ", sua mensagem é complexa. Encaminhando ao administrador!".toList) := by
  have hn : ':' ∉ u ++ ", sua mensagem é complexa. Encaminhando ao administrador!".toList := by
    intro hmem
    rcases List.mem_append.1 hmem with h | h
    · exact hu h
    · exact absurd h (by decide)
  have h := splitGo_not_mem ':' [' '] _ hn []
  simp only [List.reverse_nil, List.nil_append] at h
  have hx : "Bot: ".toList ++ u ++
      ", sua mensagem é complexa. Encaminhando ao administrador!".toList =
      'B' :: 'o' :: 't' :: ':' :: ' ' ::
        (u ++ ", sua mensagem é complexa. Encaminhando ao administrador!".toList) := rfl
  have hsep : ": ".toList = [':', ' '] := rfl
  rw [hx, hsep]
  simp only [split, splitGo, startsWith, h]
  simp

/-! ## Bot replies and their persisted text -/

/-- The second piece of `split(': ')` of a labelled frame whose body has no
colon is the whole body. -/
theorem split_bot_label (body : Str) (hn : ':' ∉ body) :
    (split ("Bot: ".toList ++ body) ": ".toList)[1]? = some body := by
  have h := splitGo_not_mem ':' [' '] body hn []
  simp only [List.reverse_nil, List.nil_append] at h
  have hx : "Bot: ".toList ++ body = 'B' :: 'o' :: 't' :: ':' :: ' ' :: body := rfl
  have hsep : ": ".toList = [':', ' '] := rfl
  rw [hx, hsep]
  simp only [split, splitGo, startsWith, h]
  simp

/-- A reply of the bot is the label 'Bot: ' followed by a body that has no colon
when the username has none. -/
theorem getBotResponse_body (lower : Str → Str) (message username r : Str)
    (h : getBotResponse lower message username = some r) (hu : ':' ∉ username) :
    "Bot: ".toList ++ r.drop 5 = r ∧ ':' ∉ r.drop 5 := by
  unfold getBotResponse at h
  simp only [] at h
  split_ifs at h <;> simp only [Option.some.injEq, reduceCtorEq] at h <;> subst h <;>
    simp [hu]

/-! ## Who takes part in the broadcasts -/

theorem mem_openNonAdmin (s : State) (a : ConnId) : a ∈ s.openNonAdmin ↔ s.listens a := by
  unfold State.openNonAdmin State.listens
  simp only [List.mem_filter, Bool.and_eq_true, decide_eq_true_eq]
  constructor
  · rintro ⟨h1, h2, h3⟩
    exact ⟨h1, h3, fun e => h2 e.symm⟩
  · rintro ⟨h1, h2, h3⟩
    exact ⟨h1, fun e => h3 e.symm, h2⟩

theorem isOpen_iff (s : State) (a : ConnId) : s.isOpen a = true ↔ a ∈ s.openConns := by
  unfold State.isOpen
  simp

theorem isOpen_erase (s : State) (a ws : ConnId) (l : List ConnId) (c : Option ConnId)
    (m : List (ConnId × Str)) (hne : ws ≠ a) (h : s.isOpen a = true) :
    State.isOpen { s with wssClients := l, openConns := s.openConns.erase ws, admin := c,
                          clients := m } a = true := by
  rw [isOpen_iff] at h ⊢
  exact (List.mem_erase_of_ne (fun e => hne e.symm)).2 h

theorem listens_step (lower : Str → Str) (s : State) (a : ConnId) (e : Event)
    (h : s.listens a) (he : e.spares a = true) : (step lower s e).1.listens a := by
  obtain ⟨h1, h2, h3⟩ := h
  cases e with
  | connection =>
    refine ⟨List.mem_append_left _ h1, ?_, h3⟩
    rw [isOpen_iff] at h2 ⊢
    exact List.mem_append_left _ h2
  | message ws msg rows =>
    simp only [step]
    split_ifs
    · cases hmsg : startsWith msg "IDENTIFY:".toList with
      | false =>
        rw [onMessage_state lower s ws msg rows hmsg]
        exact ⟨h1, h2, h3⟩
      | true =>
        rw [onMessage_handshake_state lower s ws msg rows hmsg]
        split_ifs with hid
        · refine ⟨h1, h2, ?_⟩
          intro hadm
          have hwa : ws = a := Option.some.inj hadm
          simp only [Event.spares, hwa, hmsg, hid, decide_True, Bool.and_self, Bool.not_true] at he
          exact Bool.noConfusion he
        · exact ⟨h1, h2, h3⟩
    · exact ⟨h1, h2, h3⟩
  | closing ws =>
    have hne : ws ≠ a := by simpa [Event.spares] using he
    exact ⟨h1, isOpen_erase s a ws s.wssClients s.admin s.clients hne h2, h3⟩
  | close ws =>
    have hne : ws ≠ a := by simpa [Event.spares] using he
    have hmem : a ∈ s.wssClients.erase ws := (List.mem_erase_of_ne (fun e => hne e.symm)).2 h1
    simp only [step]
    split_ifs
    · unfold onClose
      simp only []
      split_ifs
      · exact ⟨hmem, isOpen_erase s a ws _ none s.clients hne h2, by simp⟩
      · exact ⟨hmem, isOpen_erase s a ws _ s.admin _ hne h2, h3⟩
    · exact ⟨h1, h2, h3⟩

theorem listens_run (lower : Str → Str) (a : ConnId) (es : List Event) (s : State)
    (h : s.listens a) (hes : ∀ e ∈ es, e.spares a = true) : (run lower s es).listens a := by
  induction es generalizing s with
  | nil => exact h
  | cons e es ih =>
    exact ih _ (listens_step lower s a e h (hes e (List.mem_cons_self _ _)))
      (fun e' he' => hes e' (List.mem_cons_of_mem _ he'))

/-- The effects of a handshake with the identifier 'ADMIN'. -/
theorem onMessage_adminHandshake_effects (lower : Str → Str) (s : State) (ws : ConnId)
    (msg : Str) (rows : List Row) (hmsg : startsWith msg "IDENTIFY:".toList = true)
    (hid : (split msg ":".toList)[1]? = some "ADMIN".toList) :
    (onMessage lower s ws msg rows).2 =
      Effect.send ws "Bot: Você está conectado como administrador.".toList ::
        rows.map fun row => Effect.send ws (row.sender ++ ": ".toList ++ row.message) := by
  unfold onMessage
  simp only [hmsg, if_true, hid]

theorem saved_replay (ws : ConnId) (rows : List Row) :
    saved (rows.map fun row => Effect.send ws (row.sender ++ ": ".toList ++ row.message)) = [] := by
  induction rows with
  | nil => rfl
  | cons r rows ih => simpa [saved] using ih

theorem framesTo_replay_self (ws : ConnId) (rows : List Row) :
    framesTo ws (rows.map fun row => Effect.send ws (row.sender ++ ": ".toList ++ row.message)) =
      rows.map fun row => row.sender ++ ": ".toList ++ row.message := by
  induction rows with
  | nil => rfl
  | cons r rows ih => simpa [framesTo] using ih

/-! ## The close event -/

theorem mapGet_mapDelete (m : List (ConnId × Str)) (ws : ConnId) :
    mapGet (mapDelete m ws) ws = none := by
  induction m with
  | nil => rfl
  | cons kv m ih =>
    obtain ⟨k, v⟩ := kv
    by_cases hk : k = ws
    · simpa [mapDelete, List.filter, hk] using ih
    · simpa [mapDelete, List.filter, hk, mapGet] using ih

/-- The close event of the current admin. -/
theorem step_close_admin (lower : Str → Str) (s : State) (ws : ConnId)
    (hmem : ws ∈ s.wssClients) (hadmin : s.admin = some ws) :
    step lower s (Event.close ws) =
      ({ s with wssClients := s.wssClients.erase ws, openConns := s.openConns.erase ws,
                admin := none }, []) := by
  simp only [step, hmem, if_true, onClose, hadmin]

/-- The close event of a socket that is not the current admin. -/
theorem step_close_other (lower : Str → Str) (s : State) (ws : ConnId)
    (hmem : ws ∈ s.wssClients) (hadmin : s.admin ≠ some ws) :
    (step lower s (Event.close ws)).1 =
      { s with wssClients := s.wssClients.erase ws, openConns := s.openConns.erase ws,
               clients := mapDelete s.clients ws } ∧
    (step lower s (Event.close ws)).2 =
      sendAll (step lower s (Event.close ws)).1.openNonAdmin
          ("Bot: ".toList ++ interpolate (mapGet s.clients ws) ++ " saiu do chat.".toList) ++
        [Effect.saveMessage (mapGet s.clients ws)
          (some ("Bot: ".toList ++ interpolate (mapGet s.clients ws) ++ " saiu do chat.".toList))
          "bot".toList] := by
  have hne : ¬ (some ws = s.admin) := fun e => hadmin e.symm
  simp only [step, hmem, if_true, onClose, hne, if_false, broadcast_admin, and_self]

/-! ## Properties of the stored usernames -/

/-- A property that every name registered by a handshake has holds of every
stored username, after any event. -/
theorem clients_forall_step (P : Str → Prop)
    (hP : ∀ msg : Str, P (orElse ((split msg ":".toList)[1]?) anonymous))
    (lower : Str → Str) (s : State) (e : Event) (h : ∀ kv ∈ s.clients, P kv.2) :
    ∀ kv ∈ (step lower s e).1.clients, P kv.2 := by
  cases e with
  | connection => exact h
  | closing ws => exact h
  | message ws msg rows =>
    simp only [step]
    split_ifs
    · cases hmsg : startsWith msg "IDENTIFY:".toList with
      | false => rw [onMessage_state lower s ws msg rows hmsg]; exact h
      | true =>
        rw [onMessage_handshake_state lower s ws msg rows hmsg]
        split_ifs
        · exact h
        · intro kv hkv
          rcases mem_mapSet _ _ _ _ hkv with hkv | hkv
          · exact h kv hkv
          · rw [hkv]
            exact hP msg
    · exact h
  | close ws =>
    simp only [step]
    split_ifs
    · unfold onClose
      simp only []
      split_ifs
      · exact h
      · intro kv hkv
        exact h kv (List.mem_of_mem_filter hkv)
    · exact h

theorem clients_forall_run (P : Str → Prop)
    (hP : ∀ msg : Str, P (orElse ((split msg ":".toList)[1]?) anonymous))
    (lower : Str → Str) (es : List Event) (s : State) (h : ∀ kv ∈ s.clients, P kv.2) :
    ∀ kv ∈ (run lower s es).clients, P kv.2 := by
  induction es generalizing s with
  | nil => exact h
  | cons e es ih => exact ih _ (clients_forall_step P hP lower s e h)

theorem orElse_ne_nil (v : Option Str) : orElse v anonymous ≠ [] := by
  cases v with
  | none => decide
  | some p =>
    cases p with
    | nil => decide
    | cons c cs => exact List.cons_ne_nil c cs

/-- In a reachable state no stored username is the empty string. -/
theorem nonempty_of_reachable (lower : Str → Str) (s : State) (h : Reachable lower s) :
    ∀ kv ∈ s.clients, kv.2 ≠ [] := by
  obtain ⟨es, rfl⟩ := h
  exact clients_forall_run (fun u => u ≠ []) (fun _ => orElse_ne_nil _) lower es State.init
    (fun kv hkv => absurd hkv (List.not_mem_nil _))

/-! ## The shape of the frames -/

theorem mem_sendAll (l : List ConnId) (g : Str) (c : ConnId) (f : Str)
    (h : Effect.send c f ∈ sendAll l g) : f = g := by
  unfold sendAll at h
  obtain ⟨d, _, hd⟩ := List.mem_map.1 h
  exact (Effect.send.inj hd).2.symm

/-- A reply of the bot starts with the label 'Bot: '. -/
theorem getBotResponse_label (lower : Str → Str) (message username r : Str)
    (h : getBotResponse lower message username = some r) :
    r = "Bot".toList ++ ": ".toList ++ r.drop 5 := by
  unfold getBotResponse at h
  simp only [] at h
  split_ifs at h <;> simp only [Option.some.injEq, reduceCtorEq] at h <;> subst h <;> simp

/-! ## What reaches the table -/

theorem persisted_append (e1 e2 : List Effect) :
    persisted (e1 ++ e2) = persisted e1 ++ persisted e2 := by
  induction e1 with
  | nil => rfl
  | cons e e1 ih =>
    cases e with
    | send c f => simpa [persisted] using ih
    | saveMessage u m k =>
      cases u <;> cases m <;> simp [persisted, ih]

theorem persisted_sendAll (l : List ConnId) (f : Str) : persisted (sendAll l f) = [] := by
  unfold sendAll
  induction l with
  | nil => rfl
  | cons c l ih => simpa [persisted] using ih

/-! ## The classifier and the bot -/

/-- C1: `isComplexMessage` is false whenever the lower-cased text contains one of
the tokens 'oi', 'olá', 'tchau', 'até logo', whatever its length; when it
contains none of them the result is true exactly when the text has more than 50
characters (UTF-16 code units), or splitting it at each space gives more than
10 pieces, or the lower-cased text contains '?', 'como', 'por que', 'qual' or
'o que', or it contains one of the ten help keywords. -/
theorem isComplexMessage_spec (lower : Str → Str) (message : Str) :
    ((includes (lower message) "oi".toList = true ∨ includes (lower message) "olá".toList = true ∨
        includes (lower message) "tchau".toList = true ∨
        includes (lower message) "até logo".toList = true) →
      isComplexMessage lower message = false) ∧
    ((includes (lower message) "oi".toList = false ∧ includes (lower message) "olá".toList = false ∧
        includes (lower message) "tchau".toList = false ∧
        includes (lower message) "até logo".toList = false) →
      (isComplexMessage lower message = true ↔
        (jsLength message > 50 ∨ (split message " ".toList).length > 10 ∨
          includes (lower message) "?".toList = true ∨
          includes (lower message) "como".toList = true ∨
          includes (lower message) "por que".toList = true ∨
          includes (lower message) "qual".toList = true ∨
          includes (lower message) "o que".toList = true ∨
          ∃ keyword ∈ complexKeywords, includes (lower message) keyword = true))) ∧
    complexKeywords.length = 10 := by
  refine ⟨?_, ?_, rfl⟩
  · intro h
    have hs : isSimpleMessage (lower message) = true := by
      simp only [isSimpleMessage, Bool.or_eq_true]
      tauto
    simp [isComplexMessage, hs]
  · rintro ⟨h1, h2, h3, h4⟩
    have hs : isSimpleMessage (lower message) = false := by
      simp only [isSimpleMessage, h1, h2, h3, h4, Bool.or_self]
    simp only [isComplexMessage, hs, isLongMessage, isQuestion, Bool.not_false, Bool.and_true,
      Bool.or_eq_true, decide_eq_true_eq, List.any_eq_true]
    tauto

/-- Witness of C1: a greeting of 64 characters is not complex, and a text of 3
characters with a question mark is. -/
theorem isComplexMessage_spec_witness :
    isComplexMessage toLowerCase
        "Oi, preciso de ajuda para resolver um problema no meu computador".toList = false ∧
      isComplexMessage toLowerCase "eh?".toList = true :=
  ⟨(isComplexMessage_spec toLowerCase _).1 (Or.inl (by decide)),
   ((isComplexMessage_spec toLowerCase "eh?".toList).2.1 (by decide)).2
     (Or.inr (Or.inr (Or.inl (by decide))))⟩

/-- C2 (amended): a text whose word count (the number of pieces `split(' ')`
gives, as the source counts words) is greater than 10 and whose lower-cased
form contains neither a greeting token ('oi', 'olá') nor a farewell token
('tchau', 'até logo') is complex. -/
theorem isComplexMessage_of_wordCount (lower : Str → Str) (message : Str)
    (hwords : (split message " ".toList).length > 10)
    (hoi : includes (lower message) "oi".toList = false)
    (hola : includes (lower message) "olá".toList = false)
    (htchau : includes (lower message) "tchau".toList = false)
    (hlogo : includes (lower message) "até logo".toList = false) :
    isComplexMessage lower message = true := by
  simp only [isComplexMessage, isSimpleMessage, isLongMessage, hwords, hoi, hola, htchau, hlogo,
    decide_True, Bool.or_true, Bool.true_or, Bool.or_self, Bool.not_false, Bool.and_self]

/-- Witness of C2 (amended): eleven one-letter words. -/
theorem isComplexMessage_of_wordCount_witness :
    isComplexMessage toLowerCase "a b c d e f g h x j k".toList = true :=
  isComplexMessage_of_wordCount toLowerCase "a b c d e f g h x j k".toList
    (by decide) (by decide) (by decide) (by decide) (by decide)

/-- Counterexample to C2 as stated: 'tchau a b c d e f g h x j k' splits into 12
pieces at its spaces and contains no greeting token ('oi', 'olá'), yet
`isComplexMessage` returns false, because the text contains the farewell token
'tchau'. -/
theorem isComplexMessage_of_wordCount_counterexample :
    (split "tchau a b c d e f g h x j k".toList " ".toList).length = 12 ∧
      includes (toLowerCase "tchau a b c d e f g h x j k".toList) "oi".toList = false ∧
      includes (toLowerCase "tchau a b c d e f g h x j k".toList) "olá".toList = false ∧
      isComplexMessage toLowerCase "tchau a b c d e f g h x j k".toList = false := by
  decide

/-- C3: `getBotResponse` returns `null` exactly when the lower-cased text contains
none of 'oi', 'olá', 'tchau', 'até logo', 'qual é a capital do brasil'; a
greeting token gives the greeting reply whatever else the text contains, a
farewell token without a greeting token gives the farewell reply, and the
trivia pattern is answered only when neither is present. -/
theorem getBotResponse_spec (lower : Str → Str) (message username : Str) :
    (getBotResponse lower message username = none ↔
      (includes (lower message) "oi".toList = false ∧
        includes (lower message) "olá".toList = false ∧
        includes (lower message) "tchau".toList = false ∧
        includes (lower message) "até logo".toList = false ∧
        includes (lower message) "qual é a capital do brasil".toList = false)) ∧
    ((includes (lower message) "oi".toList = true ∨
        includes (lower message) "olá".toList = true) →
      getBotResponse lower message username =
        some ("Bot: Olá, ".toList ++ username ++ "! Como posso ajudar?".toList)) ∧
    ((includes (lower message) "oi".toList = false ∧
        includes (lower message) "olá".toList = false) →
      (includes (lower message) "tchau".toList = true ∨
        includes (lower message) "até logo".toList = true) →
      getBotResponse lower message username =
        some ("Bot: Até logo, ".toList ++ username ++ "!".toList)) ∧
    ((includes (lower message) "oi".toList = false ∧
        includes (lower message) "olá".toList = false ∧
        includes (lower message) "tchau".toList = false ∧
        includes (lower message) "até logo".toList = false) →
      includes (lower message) "qual é a capital do brasil".toList = true →
      getBotResponse lower message username =
        some ("Bot: A capital do Brasil é Brasília, ".toList ++ username ++ "!".toList)) := by
  unfold getBotResponse
  simp only []
  generalize includes (lower message) "oi".toList = a
  generalize includes (lower message) "olá".toList = b
  generalize includes (lower message) "tchau".toList = c
  generalize includes (lower message) "até logo".toList = d
  generalize includes (lower message) "qual é a capital do brasil".toList = e
  cases a <;> cases b <;> cases c <;> cases d <;> cases e <;> simp

/-- Witness of C3: a text with a greeting, a farewell and the trivia pattern gets
the greeting reply; one with a farewell and the trivia pattern the farewell
reply; the trivia pattern alone the trivia reply; another text gets none. -/
theorem getBotResponse_spec_witness :
    getBotResponse toLowerCase "Oi, tchau! Qual é a capital do Brasil?".toList "ana".toList =
        some "Bot: Olá, ana! Como posso ajudar?".toList ∧
      getBotResponse toLowerCase "Tchau! Qual é a capital do Brasil?".toList "ana".toList =
        some "Bot: Até logo, ana!".toList ∧
      getBotResponse toLowerCase "Qual é a capital do Brasil?".toList "ana".toList =
        some "Bot: A capital do Brasil é Brasília, ana!".toList ∧
      getBotResponse toLowerCase "bom dia".toList "ana".toList = none :=
  ⟨(getBotResponse_spec toLowerCase _ _).2.1 (Or.inl (by decide)),
   (getBotResponse_spec toLowerCase _ _).2.2.1 (by decide) (Or.inl (by decide)),
   (getBotResponse_spec toLowerCase _ _).2.2.2 (by decide) (by decide),
   (getBotResponse_spec toLowerCase "bom dia".toList "ana".toList).1.2 (by decide)⟩

/-- C17: if `getBotResponse` returns `null` for a text then the lower-cased text
contains none of the tokens 'oi', 'olá', 'tchau', 'até logo', and
`isComplexMessage` of the text equals `isLongMessage || isQuestion ||
complexKeywords.some(...)`: where the router calls the classifier, the
greeting exemption does not change the result. -/
theorem classifier_after_bot (lower : Str → Str) (message username : Str)
    (h : getBotResponse lower message username = none) :
    (includes (lower message) "oi".toList = false ∧
      includes (lower message) "olá".toList = false ∧
      includes (lower message) "tchau".toList = false ∧
      includes (lower message) "até logo".toList = false) ∧
    isComplexMessage lower message =
      (isLongMessage message || isQuestion (lower message) ||
        complexKeywords.any fun keyword => includes (lower message) keyword) := by
  unfold getBotResponse at h
  unfold isComplexMessage isSimpleMessage
  simp only [] at h ⊢
  generalize includes (lower message) "oi".toList = a at h ⊢
  generalize includes (lower message) "olá".toList = b at h ⊢
  generalize includes (lower message) "tchau".toList = c at h ⊢
  generalize includes (lower message) "até logo".toList = d at h ⊢
  generalize includes (lower message) "qual é a capital do brasil".toList = e at h
  cases a <;> cases b <;> cases c <;> cases d <;> cases e <;> simp at h ⊢

/-- Witness of C17: the bot has no reply to 'servidor caiu?', and the classifier
says complex because of the question mark. -/
theorem classifier_after_bot_witness :
    isComplexMessage toLowerCase "servidor caiu?".toList =
      (isLongMessage "servidor caiu?".toList || isQuestion (toLowerCase "servidor caiu?".toList) ||
        complexKeywords.any fun keyword => includes (toLowerCase "servidor caiu?".toList) keyword) :=
  (classifier_after_bot toLowerCase "servidor caiu?".toList "ana".toList (by decide)).2

/-! ## The handshake -/

/-- C4 (amended): for a handshake frame 'IDENTIFY:' followed by a token that
contains no ':' — if the token is 'ADMIN' the connection becomes the admin and
the username map is left alone; if it is any other non-empty string the
connection is entered in the username map under exactly that token; if it is
empty the connection is entered under 'Usuário Anônimo'; in both user cases the
admin slot is left alone. -/
theorem handshake_token (lower : Str → Str) (s : State) (ws : ConnId) (token : Str)
    (rows : List Row) (hcolon : ':' ∉ token) :
    (token = "ADMIN".toList →
      (onMessage lower s ws ("IDENTIFY:".toList ++ token) rows).1 = { s with admin := some ws }) ∧
    (token ≠ "ADMIN".toList → token ≠ [] →
      mapGet (onMessage lower s ws ("IDENTIFY:".toList ++ token) rows).1.clients ws = some token ∧
      (onMessage lower s ws ("IDENTIFY:".toList ++ token) rows).1 =
        { s with clients := mapSet s.clients ws token }) ∧
    (token = [] →
      mapGet (onMessage lower s ws ("IDENTIFY:".toList ++ token) rows).1.clients ws =
        some "Usuário Anônimo".toList ∧
      (onMessage lower s ws ("IDENTIFY:".toList ++ token) rows).1 =
        { s with clients := mapSet s.clients ws "Usuário Anônimo".toList }) := by
  have hstate := onMessage_handshake_state lower s ws ("IDENTIFY:".toList ++ token) rows
    (startsWith_append _ _)
  rw [identifier_of_token token hcolon] at hstate
  refine ⟨?_, ?_, ?_⟩
  · intro h
    rw [hstate, if_pos (by rw [h])]
  · intro h1 h2
    have hne : ¬ (some token = some "ADMIN".toList) := fun e => h1 (Option.some.inj e)
    have hor : orElse (some token) "Usuário Anônimo".toList = token := by
      cases token with
      | nil => exact absurd rfl h2
      | cons c cs => rfl
    rw [hstate, if_neg hne, hor]
    exact ⟨mapGet_mapSet _ _ _, rfl⟩
  · intro h
    subst h
    have hne : ¬ (some ([] : Str) = some "ADMIN".toList) := by decide
    rw [hstate, if_neg hne]
    exact ⟨mapGet_mapSet _ _ _, rfl⟩

/-- Witness of C4 (amended): the tokens 'ADMIN', 'ana' and the empty token, sent
by the first socket of a server that has accepted two. -/
theorem handshake_token_witness :
    (onMessage toLowerCase (run toLowerCase State.init [Event.connection, Event.connection]) 0
        "IDENTIFY:ADMIN".toList []).1.admin = some 0 ∧
      mapGet (onMessage toLowerCase (run toLowerCase State.init [Event.connection, Event.connection])
        0 "IDENTIFY:ana".toList []).1.clients 0 = some "ana".toList ∧
      mapGet (onMessage toLowerCase (run toLowerCase State.init [Event.connection, Event.connection])
        0 "IDENTIFY:".toList []).1.clients 0 = some "Usuário Anônimo".toList :=
  ⟨congrArg State.admin ((handshake_token toLowerCase
      (run toLowerCase State.init [Event.connection, Event.connection]) 0 "ADMIN".toList []
      (by decide)).1 rfl),
   ((handshake_token toLowerCase
      (run toLowerCase State.init [Event.connection, Event.connection]) 0 "ana".toList []
      (by decide)).2.1 (by decide) (by decide)).1,
   ((handshake_token toLowerCase
      (run toLowerCase State.init [Event.connection, Event.connection]) 0 [] []
      (by decide)).2.2 rfl).1⟩

/-- Counterexample to C4 as stated: the non-empty token 'a:b' registers the
username 'a', the token ':b' registers the anonymous label, and the token
'ADMIN:b', which is not 'ADMIN', makes the connection the admin. -/
theorem handshake_token_counterexample :
    mapGet (onMessage toLowerCase (run toLowerCase State.init [Event.connection]) 0
        "IDENTIFY:a:b".toList []).1.clients 0 = some "a".toList ∧
      mapGet (onMessage toLowerCase (run toLowerCase State.init [Event.connection]) 0
        "IDENTIFY::b".toList []).1.clients 0 = some "Usuário Anônimo".toList ∧
      (onMessage toLowerCase (run toLowerCase State.init [Event.connection]) 0
        "IDENTIFY:ADMIN:b".toList []).1.admin = some 0 := by
  decide

/-- C5 (amended): a frame that starts with 'IDENTIFY:' is processed as a
handshake whether or not its connection already has a role.  If its identifier
(the piece between the first and the second ':') is 'ADMIN' the admin slot is
set to that connection; otherwise the connection's entry of the username map is
set to the identifier, or to 'Usuário Anônimo' when the identifier is empty.
The frame is not persisted as a user message (the only record the handshake
can persist is the join notice, with sender 'bot'), and the only frame a
connection other than the sender can get is the join notice of the new name. -/
theorem handshake_repeated (lower : Str → Str) (s : State) (ws : ConnId) (msg : Str)
    (rows : List Row) (hmsg : startsWith msg "IDENTIFY:".toList = true) :
    ((split msg ":".toList)[1]? = some "ADMIN".toList →
      (onMessage lower s ws msg rows).1 = { s with admin := some ws }) ∧
    ((split msg ":".toList)[1]? ≠ some "ADMIN".toList →
      (onMessage lower s ws msg rows).1 =
        { s with
          clients := mapSet s.clients ws
            (orElse ((split msg ":".toList)[1]?) "Usuário Anônimo".toList) }) ∧
    (∀ r ∈ saved (onMessage lower s ws msg rows).2, r.2.2 = "bot".toList) ∧
    (∀ c, c ≠ ws → ∀ f ∈ framesTo c (onMessage lower s ws msg rows).2,
      f = "Bot: ".toList ++ orElse ((split msg ":".toList)[1]?) "Usuário Anônimo".toList ++
        " entrou no chat.".toList) := by
  have hstate := onMessage_handshake_state lower s ws msg rows hmsg
  refine ⟨fun h => by rw [hstate, if_pos h], fun h => by rw [hstate, if_neg h], ?_, ?_⟩
  · intro r hr
    unfold onMessage at hr
    simp only [hmsg, if_true] at hr
    split_ifs at hr with hid
    · rw [show ∀ (l : List Row) (f : Str), saved (Effect.send ws f :: l.map fun row =>
          Effect.send ws (row.sender ++ ": ".toList ++ row.message)) = [] from fun l f => by
        induction l with
        | nil => rfl
        | cons r l ih => simpa [saved] using ih] at hr
      exact absurd hr (List.not_mem_nil _)
    · simp only [saved, saved_append, saved_broadcast, List.nil_append, List.mem_singleton] at hr
      rw [hr]
  · intro c hc f hf
    unfold onMessage at hf
    simp only [hmsg, if_true] at hf
    split_ifs at hf with hid
    · simp only [framesTo, Ne.symm hc, if_false, framesTo_replay c ws hc] at hf
      exact absurd hf (List.not_mem_nil _)
    · simp only [framesTo, Ne.symm hc, if_false, framesTo_append, List.append_nil] at hf
      exact mem_framesTo_broadcast _ _ _ _ _ hf

/-- Witness of C5 (amended): socket 0, registered as 'bob', sends
'IDENTIFY:carol' and is registered as 'carol'. -/
theorem handshake_repeated_witness :
    (onMessage toLowerCase
        (run toLowerCase State.init
          [Event.connection, Event.connection, Event.message 0 "IDENTIFY:bob".toList []])
        0 "IDENTIFY:carol".toList []).1 =
      { run toLowerCase State.init
          [Event.connection, Event.connection, Event.message 0 "IDENTIFY:bob".toList []] with
        clients := [(0, "carol".toList)] } :=
  (handshake_repeated toLowerCase
    (run toLowerCase State.init
      [Event.connection, Event.connection, Event.message 0 "IDENTIFY:bob".toList []])
    0 "IDENTIFY:carol".toList [] (by decide)).2.1 (by decide)

/-- Counterexample to C5 as stated: socket 0 is registered as 'bob' and then
sends 'IDENTIFY:carol'.  The username map changes (socket 0 is now 'carol'), no
user record is persisted, and the other socket gets the join notice of 'carol'
and not the relayed frame 'bob: IDENTIFY:carol'. -/
theorem handshake_repeated_counterexample :
    mapGet (run toLowerCase State.init
        [Event.connection, Event.connection, Event.message 0 "IDENTIFY:bob".toList []]).clients 0 =
      some "bob".toList ∧
    mapGet (onMessage toLowerCase
        (run toLowerCase State.init
          [Event.connection, Event.connection, Event.message 0 "IDENTIFY:bob".toList []])
        0 "IDENTIFY:carol".toList []).1.clients 0 = some "carol".toList ∧
    saved (onMessage toLowerCase
        (run toLowerCase State.init
          [Event.connection, Event.connection, Event.message 0 "IDENTIFY:bob".toList []])
        0 "IDENTIFY:carol".toList []).2 =
      [(some "carol".toList, some "Bot: carol entrou no chat.".toList, "bot".toList)] ∧
    framesTo 1 (onMessage toLowerCase
        (run toLowerCase State.init
          [Event.connection, Event.connection, Event.message 0 "IDENTIFY:bob".toList []])
        0 "IDENTIFY:carol".toList []).2 = ["Bot: carol entrou no chat.".toList] := by
  decide

/-! ## Routing of chat frames -/

/-- C6: in every state (so in every reachable one), when a connection other than
the current admin `a` sends a frame that is not a handshake, the frames `a`
gets from the handler are: the single frame 'Mensagem de <username>: <text>'
when the message is escalated (the bot has no reply, the classifier says
complex and `a` is open), and nothing at all otherwise.  The relayed frame,
the bot reply and the bot notices never go to `a`. -/
theorem admin_frames (lower : Str → Str) (s : State) (ws a : ConnId) (msg : Str)
    (rows : List Row) (hadmin : s.admin = some a) (hws : ws ≠ a)
    (hmsg : startsWith msg "IDENTIFY:".toList = false) :
    framesTo a (onMessage lower s ws msg rows).2 =
      if getBotResponse lower msg (s.usernameOf ws) = none ∧ isComplexMessage lower msg = true ∧
          s.isOpen a = true then
        ["Mensagem de ".toList ++ s.usernameOf ws ++ ": ".toList ++ msg]
      else [] := by
  have hne : s.admin ≠ some ws := by
    rw [hadmin]
    exact fun e => hws (Option.some.inj e).symm
  cases hbot : getBotResponse lower msg (s.usernameOf ws) with
  | some r =>
    rw [onMessage_bot_effects lower s ws msg rows hmsg hne r hbot]
    simp only [framesTo_append, framesTo_sendAll_openNonAdmin s a hadmin, framesTo,
      List.append_nil, reduceCtorEq, false_and, if_false]
  | none =>
    rw [onMessage_silent_effects lower s ws msg rows hmsg hne hbot]
    cases hcx : isComplexMessage lower msg with
    | false =>
      simp only [Bool.false_eq_true, if_false, framesTo_append,
        framesTo_sendAll_openNonAdmin s a hadmin, framesTo, List.append_nil, false_and, and_false]
    | true =>
      cases ho : s.isOpen a with
      | false =>
        simp only [hadmin, ho, Bool.false_eq_true, if_true, if_false, framesTo_append,
          framesTo_sendAll_openNonAdmin s a hadmin, framesTo, List.append_nil, and_false, and_true]
      | true =>
        simp only [hadmin, ho, if_true, framesTo_append,
          framesTo_sendAll_openNonAdmin s a hadmin, framesTo, List.append_nil, List.nil_append,
          and_self]

/-- Witness of C6: socket 0 is the admin, socket 1 is 'ana'; her question is
escalated, her small talk is not. -/
theorem admin_frames_witness :
    framesTo 0 (onMessage toLowerCase
        (run toLowerCase State.init [Event.connection, Event.connection,
          Event.message 0 "IDENTIFY:ADMIN".toList [], Event.message 1 "IDENTIFY:ana".toList []])
        1 "servidor caiu?".toList []).2 = ["Mensagem de ana: servidor caiu?".toList] ∧
      framesTo 0 (onMessage toLowerCase
        (run toLowerCase State.init [Event.connection, Event.connection,
          Event.message 0 "IDENTIFY:ADMIN".toList [], Event.message 1 "IDENTIFY:ana".toList []])
        1 "bom dia".toList []).2 = [] :=
  ⟨(admin_frames toLowerCase
      (run toLowerCase State.init [Event.connection, Event.connection,
        Event.message 0 "IDENTIFY:ADMIN".toList [], Event.message 1 "IDENTIFY:ana".toList []])
      1 0 "servidor caiu?".toList [] (by decide) (by decide) (by decide)).trans (by decide),
   (admin_frames toLowerCase
      (run toLowerCase State.init [Event.connection, Event.connection,
        Event.message 0 "IDENTIFY:ADMIN".toList [], Event.message 1 "IDENTIFY:ana".toList []])
      1 0 "bom dia".toList [] (by decide) (by decide) (by decide)).trans (by decide)⟩

/-- C7, the code at the failing input: socket 0 is the current admin and is
open, socket 2 is 'bia', and socket 1 registers as 'ana'.  The join loop tests
`client !== ws` and not `client !== admin`, so the join notice is sent to the
admin as well as to 'bia'; socket 1 itself gets only the welcome and the notice
is persisted once.  When 'ana' closes afterwards, the departure notice, whose
loop tests `client !== admin`, is not sent to the admin. -/
theorem join_notice_sent_to_admin :
    (run toLowerCase State.init [Event.connection, Event.connection, Event.connection,
        Event.message 0 "IDENTIFY:ADMIN".toList [],
        Event.message 2 "IDENTIFY:bia".toList []]).admin = some 0 ∧
      (onMessage toLowerCase
        (run toLowerCase State.init [Event.connection, Event.connection, Event.connection,
          Event.message 0 "IDENTIFY:ADMIN".toList [], Event.message 2 "IDENTIFY:bia".toList []])
        1 "IDENTIFY:ana".toList []).2 =
      [Effect.send 1 "Bot: Bem-vindo, ana!".toList,
       Effect.send 0 "Bot: ana entrou no chat.".toList,
       Effect.send 2 "Bot: ana entrou no chat.".toList,
       Effect.saveMessage (some "ana".toList) (some "Bot: ana entrou no chat.".toList)
         "bot".toList] ∧
      (step toLowerCase
        (run toLowerCase State.init [Event.connection, Event.connection, Event.connection,
          Event.message 0 "IDENTIFY:ADMIN".toList [], Event.message 2 "IDENTIFY:bia".toList [],
          Event.message 1 "IDENTIFY:ana".toList []])
        (Event.close 1)).2 =
      [Effect.send 2 "Bot: ana saiu do chat.".toList,
       Effect.saveMessage (some "ana".toList) (some "Bot: ana saiu do chat.".toList)
         "bot".toList] := by
  decide

/-- C8: for every text `t` that is not a handshake and is sent by the current
admin connection, whatever `t` contains: after the relay of step b (the frame
'<name>: t' and the user record), the frame 'Admin: t' is sent once to each open
connection of `wss.clients` that is not the admin, the record ('Admin', t,
'admin') is persisted, and nothing else happens — no bot reply, no forwarding
or fallback notice, no bot record, no frame to the admin, no change of the
registry. -/
theorem admin_message (lower : Str → Str) (s : State) (ws : ConnId) (t : Str)
    (rows : List Row) (hadmin : s.admin = some ws)
    (ht : startsWith t "IDENTIFY:".toList = false) :
    (onMessage lower s ws t rows).2 =
      sendAll (s.wssClients.filter fun client => decide (some client ≠ s.admin) && s.isOpen client)
          (s.usernameOf ws ++ ": ".toList ++ t) ++
        [Effect.saveMessage (some (s.usernameOf ws)) (some t) "user".toList] ++
        (sendAll
            (s.wssClients.filter fun client => decide (some client ≠ s.admin) && s.isOpen client)
            ("Admin: ".toList ++ t) ++
          [Effect.saveMessage (some "Admin".toList) (some t) "admin".toList]) ∧
    saved (onMessage lower s ws t rows).2 =
      [(some (s.usernameOf ws), some t, "user".toList),
       (some "Admin".toList, some t, "admin".toList)] ∧
    framesTo ws (onMessage lower s ws t rows).2 = [] ∧
    (onMessage lower s ws t rows).1 = s := by
  have heff := onMessage_admin_effects lower s ws t rows ht hadmin
  refine ⟨heff, ?_, ?_, onMessage_state lower s ws t rows ht⟩
  · rw [heff]
    simp only [saved_append, saved_sendAll, saved, List.nil_append, List.cons_append]
  · rw [heff]
    simp only [framesTo_append, framesTo_sendAll_openNonAdmin s ws hadmin, framesTo,
      List.append_nil]

/-- Witness of C8: the admin (socket 0) sends 'Oi, como posso ajudar?', a text
with a greeting token, an interrogative token and a question mark; socket 1 is
'ana' and socket 2 never identified itself. -/
theorem admin_message_witness :
    (onMessage toLowerCase
        (run toLowerCase State.init [Event.connection, Event.connection, Event.connection,
          Event.message 0 "IDENTIFY:ADMIN".toList [], Event.message 1 "IDENTIFY:ana".toList []])
        0 "Oi, como posso ajudar?".toList []).2 =
      [Effect.send 1 "Usuário Anônimo: Oi, como posso ajudar?".toList,
       Effect.send 2 "Usuário Anônimo: Oi, como posso ajudar?".toList,
       Effect.saveMessage (some "Usuário Anônimo".toList) (some "Oi, como posso ajudar?".toList)
         "user".toList,
       Effect.send 1 "Admin: Oi, como posso ajudar?".toList,
       Effect.send 2 "Admin: Oi, como posso ajudar?".toList,
       Effect.saveMessage (some "Admin".toList) (some "Oi, como posso ajudar?".toList)
         "admin".toList] :=
  ((admin_message toLowerCase
      (run toLowerCase State.init [Event.connection, Event.connection, Event.connection,
        Event.message 0 "IDENTIFY:ADMIN".toList [], Event.message 1 "IDENTIFY:ana".toList []])
      0 "Oi, como posso ajudar?".toList [] (by decide) (by decide)).1).trans (by decide)

/-- C9: in a reachable state, let a connection `ws` that is not the admin send a
text that is not a handshake, for which `getBotResponse` returns `null` and
`isComplexMessage` returns true, and let `u` be its username.  After the relay
of step b, the forwarding notice is sent once to each open non-admin
connection, and the records persisted are the user record and one bot record,
the forwarding notice without its label.  If an admin is set and open, it is
sent the single frame 'Mensagem de u: <text>' and no fallback notice is sent;
otherwise no private frame is sent and the fallback notice goes to each open
non-admin connection, after the forwarding notice.  The text of the
specification's scenario is such a text: the bot has no reply to it, for any
username, and the classifier returns true. -/
theorem escalation_route (lower : Str → Str) (s : State) (ws : ConnId) (msg : Str) (rows : List Row)
    (hreach : Reachable lower s) (hmsg : startsWith msg "IDENTIFY:".toList = false)
    (hws : s.admin ≠ some ws)
    (hbot : getBotResponse lower msg (s.usernameOf ws) = none)
    (hcx : isComplexMessage lower msg = true) :
    (∀ a, s.admin = some a → s.isOpen a = true →
      (onMessage lower s ws msg rows).2 =
        sendAll s.openNonAdmin (s.usernameOf ws ++ ": ".toList ++ msg) ++
          [Effect.saveMessage (some (s.usernameOf ws)) (some msg) "user".toList] ++
          (sendAll s.openNonAdmin ("Bot: ".toList ++ s.usernameOf ws ++
              ", sua mensagem é complexa. Encaminhando ao administrador!".toList) ++
            ([Effect.send a ("Mensagem de ".toList ++ s.usernameOf ws ++ ": ".toList ++ msg)] ++
              [Effect.saveMessage (some "Bot".toList)
                (some (s.usernameOf ws ++
                  ", sua mensagem é complexa. Encaminhando ao administrador!".toList))
                "bot".toList])) ∧
      framesTo a (onMessage lower s ws msg rows).2 =
        ["Mensagem de ".toList ++ s.usernameOf ws ++ ": ".toList ++ msg]) ∧
    ((s.admin = none ∨ ∃ a, s.admin = some a ∧ s.isOpen a = false) →
      (onMessage lower s ws msg rows).2 =
        sendAll s.openNonAdmin (s.usernameOf ws ++ ": ".toList ++ msg) ++
          [Effect.saveMessage (some (s.usernameOf ws)) (some msg) "user".toList] ++
          (sendAll s.openNonAdmin ("Bot: ".toList ++ s.usernameOf ws ++
              ", sua mensagem é complexa. Encaminhando ao administrador!".toList) ++
            (sendAll s.openNonAdmin ("Bot: Desculpe, ".toList ++ s.usernameOf ws ++
                ", nenhum administrador disponível.".toList) ++
              [Effect.saveMessage (some "Bot".toList)
                (some (s.usernameOf ws ++
                  ", sua mensagem é complexa. Encaminhando ao administrador!".toList))
                "bot".toList]))) ∧
    saved (onMessage lower s ws msg rows).2 =
      [(some (s.usernameOf ws), some msg, "user".toList),
       (some "Bot".toList,
        some (s.usernameOf ws ++
          ", sua mensagem é complexa. Encaminhando ao administrador!".toList),
        "bot".toList)] ∧
    (∀ username, getBotResponse toLowerCase
      "I have a problem and don't know how to configure the server, can someone explain?".toList
      username = none) ∧
    isComplexMessage toLowerCase
      "I have a problem and don't know how to configure the server, can someone explain?".toList =
      true := by
  have heff := onMessage_silent_effects lower s ws msg rows hmsg hws hbot
  rw [split_notifyUser _ (usernameOf_colon_free lower s hreach ws)] at heff
  simp only [hcx, if_true] at heff
  refine ⟨?_, ?_, ?_, ?_, by decide⟩
  · intro a ha ho
    simp only [ha, ho, if_true] at heff
    refine ⟨heff, ?_⟩
    rw [heff]
    simp only [framesTo_append, framesTo_sendAll_openNonAdmin s a ha, framesTo, if_true,
      List.append_nil, List.nil_append]
  · rintro (ha | ⟨a, ha, ho⟩)
    · simp only [ha] at heff
      exact heff
    · simp only [ha, ho, Bool.false_eq_true, if_false] at heff
      exact heff
  · rw [heff]
    cases ha : s.admin with
    | none => simp only [saved_append, saved_sendAll, saved, List.nil_append, List.cons_append]
    | some a =>
      cases ho : s.isOpen a <;>
        simp only [ho, Bool.false_eq_true, if_true, if_false, saved_append, saved_sendAll, saved,
          List.nil_append, List.cons_append]
  · intro username
    exact getBotResponse_eq_none toLowerCase _ username (by decide)

/-- Witness of C9: 'ana' (socket 1) sends the text of the scenario, once while
the admin (socket 0) is open and once after its transport has started closing. -/
theorem escalation_route_witness :
    framesTo 0 (onMessage toLowerCase
        (run toLowerCase State.init [Event.connection, Event.connection,
          Event.message 0 "IDENTIFY:ADMIN".toList [], Event.message 1 "IDENTIFY:ana".toList []])
        1 "I have a problem and don't know how to configure the server, can someone explain?".toList
        []).2 =
      ["Mensagem de ana: I have a problem and don't know how to configure the server, can someone explain?".toList] ∧
    (onMessage toLowerCase
        (run toLowerCase State.init [Event.connection, Event.connection,
          Event.message 0 "IDENTIFY:ADMIN".toList [], Event.message 1 "IDENTIFY:ana".toList [],
          Event.closing 0])
        1 "I have a problem and don't know how to configure the server, can someone explain?".toList
        []).2 =
      [Effect.send 1
        "ana: I have a problem and don't know how to configure the server, can someone explain?".toList,
       Effect.saveMessage (some "ana".toList)
        (some "I have a problem and don't know how to configure the server, can someone explain?".toList)
        "user".toList,
       Effect.send 1 "Bot: ana, sua mensagem é complexa. Encaminhando ao administrador!".toList,
       Effect.send 1 "Bot: Desculpe, ana, nenhum administrador disponível.".toList,
       Effect.saveMessage (some "Bot".toList)
        (some "ana, sua mensagem é complexa. Encaminhando ao administrador!".toList)
        "bot".toList] :=
  ⟨(((escalation_route toLowerCase
      (run toLowerCase State.init [Event.connection, Event.connection,
        Event.message 0 "IDENTIFY:ADMIN".toList [], Event.message 1 "IDENTIFY:ana".toList []])
      1 "I have a problem and don't know how to configure the server, can someone explain?".toList
      [] ⟨_, rfl⟩ (by decide) (by decide) (by decide) (by decide)).1 0 (by decide)
        (by decide)).2).trans (by decide),
   ((escalation_route toLowerCase
      (run toLowerCase State.init [Event.connection, Event.connection,
        Event.message 0 "IDENTIFY:ADMIN".toList [], Event.message 1 "IDENTIFY:ana".toList [],
        Event.closing 0])
      1 "I have a problem and don't know how to configure the server, can someone explain?".toList
      [] ⟨_, rfl⟩ (by decide) (by decide) (by decide) (by decide)).2.1
        (Or.inr ⟨0, by decide, by decide⟩)).trans (by decide)⟩

/-- C10 (amended): when a registered user with username `u`, who is not the
admin, sends the text 'Hello', `isComplexMessage` is false and `getBotResponse`
is `null` (the lower-cased text contains neither 'oi' nor 'olá'); the router
relays 'u: Hello' to the open non-admin connections and persists the user
record, and no bot reply is sent or persisted. -/
theorem hello_scenario (s : State) (ws : ConnId) (u : Str) (rows : List Row)
    (hu : mapGet s.clients ws = some u) (hne : u ≠ []) (hws : s.admin ≠ some ws) :
    isComplexMessage toLowerCase "Hello".toList = false ∧
    getBotResponse toLowerCase "Hello".toList u = none ∧
    (onMessage toLowerCase s ws "Hello".toList rows).2 =
      sendAll (s.wssClients.filter fun client => decide (some client ≠ s.admin) && s.isOpen client)
          (u ++ ": Hello".toList) ++
        [Effect.saveMessage (some u) (some "Hello".toList) "user".toList] ∧
    (onMessage toLowerCase s ws "Hello".toList rows).1 = s := by
  have hname : s.usernameOf ws = u := by
    unfold State.usernameOf
    rw [hu]
    cases u with
    | nil => exact absurd rfl hne
    | cons c cs => rfl
  have hbot : ∀ username, getBotResponse toLowerCase "Hello".toList username = none :=
    fun username => getBotResponse_eq_none toLowerCase _ username (by decide)
  have hcx : isComplexMessage toLowerCase "Hello".toList = false := by decide
  have heff := onMessage_silent_effects toLowerCase s ws "Hello".toList rows (by decide) hws
    (hbot _)
  rw [hcx, hname] at heff
  refine ⟨hcx, hbot u, ?_, onMessage_state toLowerCase s ws _ rows (by decide)⟩
  rw [heff]
  simp only [Bool.false_eq_true, if_false, List.append_nil, List.append_assoc]
  rfl

/-- Witness of C10 (amended): 'ana' (socket 1) says 'Hello'; socket 0 is the
admin and socket 2 an open connection that never identified itself. -/
theorem hello_scenario_witness :
    (onMessage toLowerCase
        (run toLowerCase State.init [Event.connection, Event.connection, Event.connection,
          Event.message 0 "IDENTIFY:ADMIN".toList [], Event.message 1 "IDENTIFY:ana".toList []])
        1 "Hello".toList []).2 =
      [Effect.send 1 "ana: Hello".toList, Effect.send 2 "ana: Hello".toList,
       Effect.saveMessage (some "ana".toList) (some "Hello".toList) "user".toList] :=
  ((hello_scenario
      (run toLowerCase State.init [Event.connection, Event.connection, Event.connection,
        Event.message 0 "IDENTIFY:ADMIN".toList [], Event.message 1 "IDENTIFY:ana".toList []])
      1 "ana".toList [] (by decide) (by decide) (by decide)).2.2.1).trans (by decide)

/-- Counterexample to C10 as stated: for the registered user 'ana' the text
'Hello' gets no reply from `getBotResponse`, and the router sends and persists
nothing but the relayed frame and the user record. -/
theorem hello_scenario_counterexample :
    getBotResponse toLowerCase "Hello".toList "ana".toList = none ∧
      getBotResponse toLowerCase "Hello".toList "ana".toList ≠
        some "Bot: Olá, ana! Como posso ajudar?".toList ∧
      (onMessage toLowerCase
        (run toLowerCase State.init [Event.connection, Event.connection,
          Event.message 0 "IDENTIFY:ana".toList []])
        0 "Hello".toList []).2 =
      [Effect.send 0 "ana: Hello".toList, Effect.send 1 "ana: Hello".toList,
       Effect.saveMessage (some "ana".toList) (some "Hello".toList) "user".toList] := by
  decide

/-! ## Bot replies -/

/-- C11: in a reachable state, when a connection `ws` that is not the admin sends
a text that is not a handshake and `getBotResponse` has the reply `r` for it:
after the relay of step b, `r` is sent once to each open connection of
`wss.clients` that is not the current admin and to nobody else, the records
persisted are the user record and one bot record whose message is `r` without
its leading 'Bot: ' (the whole body), and nothing else is sent — no forwarding
notice, no escalation frame, no fallback notice, no frame to the admin. -/
theorem bot_reply (lower : Str → Str) (s : State) (ws : ConnId) (msg : Str) (rows : List Row)
    (r : Str) (hreach : Reachable lower s) (hmsg : startsWith msg "IDENTIFY:".toList = false)
    (hws : s.admin ≠ some ws)
    (hbot : getBotResponse lower msg (s.usernameOf ws) = some r) :
    (onMessage lower s ws msg rows).2 =
      sendAll (s.wssClients.filter fun client => decide (some client ≠ s.admin) && s.isOpen client)
          (s.usernameOf ws ++ ": ".toList ++ msg) ++
        [Effect.saveMessage (some (s.usernameOf ws)) (some msg) "user".toList] ++
        (sendAll
            (s.wssClients.filter fun client => decide (some client ≠ s.admin) && s.isOpen client)
            r ++
          [Effect.saveMessage (some "Bot".toList) (some (r.drop 5)) "bot".toList]) ∧
    "Bot: ".toList ++ r.drop 5 = r ∧
    saved (onMessage lower s ws msg rows).2 =
      [(some (s.usernameOf ws), some msg, "user".toList),
       (some "Bot".toList, some (r.drop 5), "bot".toList)] ∧
    (∀ a, s.admin = some a → framesTo a (onMessage lower s ws msg rows).2 = []) := by
  obtain ⟨hlabel, hbody⟩ :=
    getBotResponse_body lower msg _ r hbot (usernameOf_colon_free lower s hreach ws)
  have heff := onMessage_bot_effects lower s ws msg rows hmsg hws r hbot
  have hsplit : (split r ": ".toList)[1]? = some (r.drop 5) := by
    have h := split_bot_label (r.drop 5) hbody
    rwa [hlabel] at h
  rw [hsplit] at heff
  refine ⟨heff, hlabel, ?_, ?_⟩
  · rw [heff]
    simp only [saved_append, saved_sendAll, saved, List.nil_append, List.cons_append]
  · intro a ha
    rw [heff]
    simp only [framesTo_append, framesTo_sendAll_openNonAdmin s a ha, framesTo, List.append_nil]

/-- Witness of C11: 'ana' (socket 1) asks for the capital of Brazil; socket 0 is
the admin and socket 2 an open connection that never identified itself. -/
theorem bot_reply_witness :
    (onMessage toLowerCase
        (run toLowerCase State.init [Event.connection, Event.connection, Event.connection,
          Event.message 0 "IDENTIFY:ADMIN".toList [], Event.message 1 "IDENTIFY:ana".toList []])
        1 "Qual é a capital do Brasil".toList []).2 =
      [Effect.send 1 "ana: Qual é a capital do Brasil".toList,
       Effect.send 2 "ana: Qual é a capital do Brasil".toList,
       Effect.saveMessage (some "ana".toList) (some "Qual é a capital do Brasil".toList)
         "user".toList,
       Effect.send 1 "Bot: A capital do Brasil é Brasília, ana!".toList,
       Effect.send 2 "Bot: A capital do Brasil é Brasília, ana!".toList,
       Effect.saveMessage (some "Bot".toList) (some "A capital do Brasil é Brasília, ana!".toList)
         "bot".toList] :=
  ((bot_reply toLowerCase
      (run toLowerCase State.init [Event.connection, Event.connection, Event.connection,
        Event.message 0 "IDENTIFY:ADMIN".toList [], Event.message 1 "IDENTIFY:ana".toList []])
      1 "Qual é a capital do Brasil".toList [] "Bot: A capital do Brasil é Brasília, ana!".toList
      ⟨_, rfl⟩ (by decide) (by decide) (by decide)).1).trans (by decide)

/-! ## The admin slot -/

/-- C12: let `a` be the current admin and let a different connection `b` send
'IDENTIFY:ADMIN'.  Afterwards the admin slot is `b`; `a` is still in
`wss.clients` with the same `readyState` and the handshake sends it no frame;
and if `a` is connected and open, it takes part in the broadcasts from then on:
after any further events other than an admin handshake of `a`, the closing of
its transport or its close event, `a` is among the open non-admin connections
and gets every frame that is broadcast to them. -/
theorem admin_replaced (lower : Str → Str) (s : State) (a b : ConnId) (rows : List Row)
    (_ha : s.admin = some a) (hb : b ≠ a) :
    (onMessage lower s b "IDENTIFY:ADMIN".toList rows).1.admin = some b ∧
    (onMessage lower s b "IDENTIFY:ADMIN".toList rows).1.wssClients = s.wssClients ∧
    (onMessage lower s b "IDENTIFY:ADMIN".toList rows).1.openConns = s.openConns ∧
    framesTo a (onMessage lower s b "IDENTIFY:ADMIN".toList rows).2 = [] ∧
    (a ∈ s.wssClients → s.isOpen a = true →
      ∀ es : List Event, (∀ e ∈ es, e.spares a = true) →
        a ∈ (run lower (onMessage lower s b "IDENTIFY:ADMIN".toList rows).1 es).openNonAdmin ∧
        ∀ frame : Str, frame ∈ framesTo a
          (broadcast (run lower (onMessage lower s b "IDENTIFY:ADMIN".toList rows).1 es)
            (run lower (onMessage lower s b "IDENTIFY:ADMIN".toList rows).1 es).admin frame)) := by
  have hstate : (onMessage lower s b "IDENTIFY:ADMIN".toList rows).1 = { s with admin := some b } := by
    rw [onMessage_handshake_state lower s b _ rows (by decide), if_pos (by decide)]
  have heff := onMessage_adminHandshake_effects lower s b "IDENTIFY:ADMIN".toList rows
    (by decide) (by decide)
  refine ⟨by rw [hstate], by rw [hstate], by rw [hstate], ?_, ?_⟩
  · rw [heff]
    simp only [framesTo, hb, if_false, framesTo_replay a b (Ne.symm hb)]
  · intro hmem hopen es hes
    have hl : State.listens (onMessage lower s b "IDENTIFY:ADMIN".toList rows).1 a := by
      rw [hstate]
      exact ⟨hmem, hopen, fun e => hb (Option.some.inj e)⟩
    have hrun := listens_run lower a es _ hl hes
    have hrec := (mem_openNonAdmin _ a).2 hrun
    refine ⟨hrec, fun frame => ?_⟩
    rw [broadcast_admin]
    exact mem_framesTo_sendAll _ _ _ hrec

/-- Witness of C12: socket 0 is the admin and socket 1 sends 'IDENTIFY:ADMIN';
when socket 2, registered as 'ana', then says 'bom dia', socket 0 gets the
relayed frame. -/
theorem admin_replaced_witness :
    0 ∈ (run toLowerCase
        (onMessage toLowerCase
          (run toLowerCase State.init [Event.connection, Event.connection, Event.connection,
            Event.message 0 "IDENTIFY:ADMIN".toList []])
          1 "IDENTIFY:ADMIN".toList []).1
        [Event.message 2 "IDENTIFY:ana".toList []]).openNonAdmin ∧
      framesTo 0 (onMessage toLowerCase
        (run toLowerCase State.init [Event.connection, Event.connection, Event.connection,
          Event.message 0 "IDENTIFY:ADMIN".toList [], Event.message 1 "IDENTIFY:ADMIN".toList [],
          Event.message 2 "IDENTIFY:ana".toList []])
        2 "bom dia".toList []).2 = ["ana: bom dia".toList] :=
  ⟨((admin_replaced toLowerCase
      (run toLowerCase State.init [Event.connection, Event.connection, Event.connection,
        Event.message 0 "IDENTIFY:ADMIN".toList []])
      0 1 [] (by decide) (by decide)).2.2.2.2 (by decide) (by decide)
      [Event.message 2 "IDENTIFY:ana".toList []] (by decide)).1,
   by decide⟩

/-- C14: when a connection `ws` sends 'IDENTIFY:ADMIN' and the persistence sink
hands over the rows `rows`, the handler sends `ws` the welcome frame followed
by one frame per row, '<sender>: <message>', in the order of the rows (so
`rows.length + 1` frames in all); no other connection is sent anything and
nothing is persisted. -/
theorem admin_handshake_replay (lower : Str → Str) (s : State) (ws : ConnId) (rows : List Row) :
    (onMessage lower s ws "IDENTIFY:ADMIN".toList rows).2 =
      Effect.send ws "Bot: Você está conectado como administrador.".toList ::
        rows.map (fun row => Effect.send ws (row.sender ++ ": ".toList ++ row.message)) ∧
    framesTo ws (onMessage lower s ws "IDENTIFY:ADMIN".toList rows).2 =
      "Bot: Você está conectado como administrador.".toList ::
        rows.map (fun row => row.sender ++ ": ".toList ++ row.message) ∧
    (framesTo ws (onMessage lower s ws "IDENTIFY:ADMIN".toList rows).2).length =
      rows.length + 1 ∧
    (∀ c, c ≠ ws → framesTo c (onMessage lower s ws "IDENTIFY:ADMIN".toList rows).2 = []) ∧
    saved (onMessage lower s ws "IDENTIFY:ADMIN".toList rows).2 = [] := by
  have heff := onMessage_adminHandshake_effects lower s ws "IDENTIFY:ADMIN".toList rows
    (by decide) (by decide)
  have hself : framesTo ws (onMessage lower s ws "IDENTIFY:ADMIN".toList rows).2 =
      "Bot: Você está conectado como administrador.".toList ::
        rows.map (fun row => row.sender ++ ": ".toList ++ row.message) := by
    rw [heff]
    simp only [framesTo, if_true, framesTo_replay_self]
  refine ⟨heff, hself, ?_, ?_, ?_⟩
  · rw [hself, List.length_cons, List.length_map]
  · intro c hc
    rw [heff]
    simp only [framesTo, Ne.symm hc, if_false, framesTo_replay c ws hc]
  · rw [heff]
    simp only [saved, saved_replay]

/-! ## Closing a connection -/

/-- C13: on the close event of a connection of `wss.clients` — if it is the
current admin, the admin slot becomes empty, no frame is sent and nothing is
persisted; if it is not the admin and is registered with the username `u`, its
entry leaves the username map, the notice 'Bot: u saiu do chat.' is sent once
to each connection that is then open and is not the admin, and the notice is
persisted with sender 'bot'. -/
theorem close_event (lower : Str → Str) (s : State) (ws : ConnId) (hmem : ws ∈ s.wssClients) :
    (s.admin = some ws →
      (step lower s (Event.close ws)).1.admin = none ∧
      (step lower s (Event.close ws)).2 = []) ∧
    (∀ u : Str, s.admin ≠ some ws → mapGet s.clients ws = some u →
      mapGet (step lower s (Event.close ws)).1.clients ws = none ∧
      (step lower s (Event.close ws)).1.admin = s.admin ∧
      (step lower s (Event.close ws)).1.wssClients = s.wssClients.erase ws ∧
      (step lower s (Event.close ws)).2 =
        sendAll (step lower s (Event.close ws)).1.openNonAdmin
            ("Bot: ".toList ++ u ++ " saiu do chat.".toList) ++
          [Effect.saveMessage (some u) (some ("Bot: ".toList ++ u ++ " saiu do chat.".toList))
            "bot".toList]) := by
  constructor
  · intro hadmin
    rw [step_close_admin lower s ws hmem hadmin]
    exact ⟨rfl, rfl⟩
  · intro u hadmin hu
    obtain ⟨hst, heff⟩ := step_close_other lower s ws hmem hadmin
    refine ⟨?_, ?_, ?_, ?_⟩
    · rw [hst]
      exact mapGet_mapDelete _ _
    · rw [hst]
    · rw [hst]
    · rw [heff, hu]
      rfl

/-- Witness of C13: socket 0 is the admin, socket 1 is 'ana' and socket 2 is
'bia'; first the admin closes, then, in the state before that, 'ana' closes. -/
theorem close_event_witness :
    (step toLowerCase
        (run toLowerCase State.init [Event.connection, Event.connection, Event.connection,
          Event.message 0 "IDENTIFY:ADMIN".toList [], Event.message 1 "IDENTIFY:ana".toList [],
          Event.message 2 "IDENTIFY:bia".toList []])
        (Event.close 0)).2 = [] ∧
      (step toLowerCase
        (run toLowerCase State.init [Event.connection, Event.connection, Event.connection,
          Event.message 0 "IDENTIFY:ADMIN".toList [], Event.message 1 "IDENTIFY:ana".toList [],
          Event.message 2 "IDENTIFY:bia".toList []])
        (Event.close 1)).2 =
      [Effect.send 2 "Bot: ana saiu do chat.".toList,
       Effect.saveMessage (some "ana".toList) (some "Bot: ana saiu do chat.".toList)
         "bot".toList] :=
  ⟨((close_event toLowerCase
      (run toLowerCase State.init [Event.connection, Event.connection, Event.connection,
        Event.message 0 "IDENTIFY:ADMIN".toList [], Event.message 1 "IDENTIFY:ana".toList [],
        Event.message 2 "IDENTIFY:bia".toList []])
      0 (by decide)).1 (by decide)).2,
   (((close_event toLowerCase
      (run toLowerCase State.init [Event.connection, Event.connection, Event.connection,
        Event.message 0 "IDENTIFY:ADMIN".toList [], Event.message 1 "IDENTIFY:ana".toList [],
        Event.message 2 "IDENTIFY:bia".toList []])
      1 (by decide)).2 "ana".toList (by decide) (by decide)).2.2.2).trans (by decide)⟩

/-- C19 (amended): the close event of a connection of `wss.clients` that is
neither the current admin nor a key of the username map still sends a departure
notice to each connection that is then open and is not the admin, and calls
`saveMessage` for it; the name in the notice is the text 'undefined' and the
username passed to `saveMessage` is `undefined` — not the anonymous label.
Because the column `username` is declared `NOT NULL`, that call adds no row to
the table: the notice is not persisted. -/
theorem close_unregistered (lower : Str → Str) (s : State) (ws : ConnId)
    (hmem : ws ∈ s.wssClients) (hadmin : s.admin ≠ some ws)
    (hnone : mapGet s.clients ws = none) :
    (step lower s (Event.close ws)).2 =
      sendAll (step lower s (Event.close ws)).1.openNonAdmin
          "Bot: undefined saiu do chat.".toList ++
        [Effect.saveMessage none (some "Bot: undefined saiu do chat.".toList) "bot".toList] ∧
    persisted (step lower s (Event.close ws)).2 = [] ∧
    (step lower s (Event.close ws)).1.admin = s.admin ∧
    (step lower s (Event.close ws)).1.wssClients = s.wssClients.erase ws ∧
    "Bot: undefined saiu do chat.".toList ≠ "Bot: Usuário Anônimo saiu do chat.".toList := by
  obtain ⟨hst, heff⟩ := step_close_other lower s ws hmem hadmin
  have heff2 : (step lower s (Event.close ws)).2 =
      sendAll (step lower s (Event.close ws)).1.openNonAdmin
          "Bot: undefined saiu do chat.".toList ++
        [Effect.saveMessage none (some "Bot: undefined saiu do chat.".toList) "bot".toList] := by
    rw [heff, hnone]
    rfl
  refine ⟨heff2, ?_, by rw [hst], by rw [hst], by decide⟩
  rw [heff2, persisted_append, persisted_sendAll]
  rfl

/-- Witness of C19 (amended): socket 2 never sent a handshake; socket 0 registered
as admin and was replaced by socket 1.  Socket 3 is 'ana'. -/
theorem close_unregistered_witness :
    (step toLowerCase
        (run toLowerCase State.init [Event.connection, Event.connection, Event.connection,
          Event.connection, Event.message 0 "IDENTIFY:ADMIN".toList [],
          Event.message 1 "IDENTIFY:ADMIN".toList [], Event.message 3 "IDENTIFY:ana".toList []])
        (Event.close 2)).2 =
      [Effect.send 0 "Bot: undefined saiu do chat.".toList,
       Effect.send 3 "Bot: undefined saiu do chat.".toList,
       Effect.saveMessage none (some "Bot: undefined saiu do chat.".toList) "bot".toList] ∧
      persisted (step toLowerCase
        (run toLowerCase State.init [Event.connection, Event.connection, Event.connection,
          Event.connection, Event.message 0 "IDENTIFY:ADMIN".toList [],
          Event.message 1 "IDENTIFY:ADMIN".toList [], Event.message 3 "IDENTIFY:ana".toList []])
        (Event.close 0)).2 = [] :=
  ⟨((close_unregistered toLowerCase
      (run toLowerCase State.init [Event.connection, Event.connection, Event.connection,
        Event.connection, Event.message 0 "IDENTIFY:ADMIN".toList [],
        Event.message 1 "IDENTIFY:ADMIN".toList [], Event.message 3 "IDENTIFY:ana".toList []])
      2 (by decide) (by decide) (by decide)).1).trans (by decide),
   (close_unregistered toLowerCase
      (run toLowerCase State.init [Event.connection, Event.connection, Event.connection,
        Event.connection, Event.message 0 "IDENTIFY:ADMIN".toList [],
        Event.message 1 "IDENTIFY:ADMIN".toList [], Event.message 3 "IDENTIFY:ana".toList []])
      0 (by decide) (by decide) (by decide)).2.1⟩

/-- Counterexample to C19 as stated: socket 1 never sent a handshake and closes
while socket 0, registered as 'ana', is open.  The departure notice is sent and
`saveMessage` is called with an `undefined` username, but the call adds no row
to the table; the close of the registered 'ana', in the same state, adds one. -/
theorem close_unregistered_counterexample :
    (step toLowerCase
        (run toLowerCase State.init [Event.connection, Event.connection,
          Event.message 0 "IDENTIFY:ana".toList []])
        (Event.close 1)).2 =
      [Effect.send 0 "Bot: undefined saiu do chat.".toList,
       Effect.saveMessage none (some "Bot: undefined saiu do chat.".toList) "bot".toList] ∧
      persisted (step toLowerCase
        (run toLowerCase State.init [Event.connection, Event.connection,
          Event.message 0 "IDENTIFY:ana".toList []])
        (Event.close 1)).2 = [] ∧
      persisted (step toLowerCase
        (run toLowerCase State.init [Event.connection, Event.connection,
          Event.message 0 "IDENTIFY:ana".toList []])
        (Event.close 0)).2 =
      [("ana".toList, "Bot: ana saiu do chat.".toList, "bot".toList)] := by
  decide

/-- C16, the code at the failing input: socket 0 registers as 'bob', then sends
'IDENTIFY:ADMIN', then closes.  The close handler takes the admin branch, which
clears the admin slot and does not call `clients.delete`: after the close event
socket 0 is no longer in `wss.clients` and the admin slot is empty, but socket
0 is still a key of the username map. -/
theorem closed_socket_still_registered :
    0 ∉ (run toLowerCase State.init [Event.connection, Event.message 0 "IDENTIFY:bob".toList [],
        Event.message 0 "IDENTIFY:ADMIN".toList [], Event.close 0]).wssClients ∧
      (run toLowerCase State.init [Event.connection, Event.message 0 "IDENTIFY:bob".toList [],
        Event.message 0 "IDENTIFY:ADMIN".toList [], Event.close 0]).admin = none ∧
      mapGet (run toLowerCase State.init [Event.connection,
        Event.message 0 "IDENTIFY:bob".toList [], Event.message 0 "IDENTIFY:ADMIN".toList [],
        Event.close 0]).clients 0 = some "bob".toList := by
  decide

/-! ## Usernames and frames -/

/-- C18: in a reachable state every username stored in the map `clients` is
non-empty and free of colons; the name the router uses for a connection is its
stored username when it has one and 'Usuário Anônimo' when it has none; so the
name interpolated into a relayed frame, a bot reply or a forwarding notice
never contains a colon. -/
theorem usernames_wellformed (lower : Str → Str) (s : State) (h : Reachable lower s) :
    (∀ kv ∈ s.clients, kv.2 ≠ [] ∧ ':' ∉ kv.2) ∧
    (∀ ws u, mapGet s.clients ws = some u → s.usernameOf ws = u) ∧
    (∀ ws, mapGet s.clients ws = none → s.usernameOf ws = "Usuário Anônimo".toList) ∧
    (∀ ws, ':' ∉ s.usernameOf ws) := by
  refine ⟨fun kv hkv => ⟨nonempty_of_reachable lower s h kv hkv,
    colonFree_of_reachable lower s h kv hkv⟩, ?_, ?_, usernameOf_colon_free lower s h⟩
  · intro ws u hu
    have hne : u ≠ [] := nonempty_of_reachable lower s h (ws, u) (mapGet_mem _ _ _ hu)
    unfold State.usernameOf
    rw [hu]
    cases u with
    | nil => exact absurd rfl hne
    | cons c cs => rfl
  · intro ws hnone
    unfold State.usernameOf
    rw [hnone]
    rfl

/-- Witness of C18: after the handshakes 'IDENTIFY:a:b' and 'IDENTIFY:' the
stored usernames are 'a' and 'Usuário Anônimo'. -/
theorem usernames_wellformed_witness :
    (run toLowerCase State.init [Event.connection, Event.connection,
        Event.message 0 "IDENTIFY:a:b".toList [], Event.message 1 "IDENTIFY:".toList []]).clients =
      [(0, "a".toList), (1, "Usuário Anônimo".toList)] ∧
    ("a".toList ≠ [] ∧ ':' ∉ "a".toList) :=
  ⟨by decide,
   (usernames_wellformed toLowerCase
    (run toLowerCase State.init [Event.connection, Event.connection,
      Event.message 0 "IDENTIFY:a:b".toList [], Event.message 1 "IDENTIFY:".toList []])
    ⟨_, rfl⟩).1 (0, "a".toList) (by decide)⟩

/-- C15 (amended): every frame sent while an event is handled, in any state, has
the form '<label>: <text>', where the label is 'Bot', 'Admin', or — for a frame
sent while a message of connection `ws` is handled — the name the router uses
for `ws` (the relayed frame), 'Mensagem de ' followed by that name (the private
escalation), or the `sender` column of one of the replayed rows (the history
replay). -/
theorem frame_form (lower : Str → Str) (s : State) (e : Event) (c : ConnId) (f : Str)
    (hf : Effect.send c f ∈ (step lower s e).2) :
    ∃ label text : Str, f = label ++ ": ".toList ++ text ∧
      (label = "Bot".toList ∨ label = "Admin".toList ∨
        ∃ ws msg rows, e = Event.message ws msg rows ∧
          (label = s.usernameOf ws ∨ label = "Mensagem de ".toList ++ s.usernameOf ws ∨
            ∃ row ∈ rows, label = row.sender)) := by
  cases e with
  | connection => exact absurd hf (List.not_mem_nil _)
  | closing ws => exact absurd hf (List.not_mem_nil _)
  | close ws =>
    by_cases hmem : ws ∈ s.wssClients
    · by_cases hadmin : s.admin = some ws
      · rw [step_close_admin lower s ws hmem hadmin] at hf
        exact absurd hf (List.not_mem_nil _)
      · rw [(step_close_other lower s ws hmem hadmin).2] at hf
        simp only [List.mem_append, List.mem_singleton, reduceCtorEq, or_false] at hf
        exact ⟨"Bot".toList, _, mem_sendAll _ _ _ _ hf, Or.inl rfl⟩
    · simp only [step, hmem, if_false] at hf
      exact absurd hf (List.not_mem_nil _)
  | message ws msg rows =>
    by_cases hmem : ws ∈ s.wssClients
    swap
    · simp only [step, hmem, if_false] at hf
      exact absurd hf (List.not_mem_nil _)
    simp only [step, hmem, if_true] at hf
    have hrelay : ∀ g : Str, f = s.usernameOf ws ++ ": ".toList ++ g →
        ∃ label text : Str, f = label ++ ": ".toList ++ text ∧
          (label = "Bot".toList ∨ label = "Admin".toList ∨
            ∃ ws' msg' rows', Event.message ws msg rows = Event.message ws' msg' rows' ∧
              (label = s.usernameOf ws' ∨ label = "Mensagem de ".toList ++ s.usernameOf ws' ∨
                ∃ row ∈ rows', label = row.sender)) :=
      fun g hg => ⟨_, g, hg, Or.inr (Or.inr ⟨ws, msg, rows, rfl, Or.inl rfl⟩)⟩
    cases hmsg : startsWith msg "IDENTIFY:".toList with
    | true =>
      by_cases hid : (split msg ":".toList)[1]? = some "ADMIN".toList
      · rw [onMessage_adminHandshake_effects lower s ws msg rows hmsg hid] at hf
        simp only [List.mem_cons, Effect.send.injEq, List.mem_map] at hf
        rcases hf with ⟨_, hf⟩ | ⟨row, hrow, _, hf⟩
        · exact ⟨"Bot".toList, _, hf, Or.inl rfl⟩
        · exact ⟨row.sender, row.message, hf.symm,
            Or.inr (Or.inr ⟨ws, msg, rows, rfl, Or.inr (Or.inr ⟨row, hrow, rfl⟩)⟩)⟩
      · rw [onMessage_join_effects lower s ws msg rows hmsg hid] at hf
        simp only [List.mem_cons, Effect.send.injEq, List.mem_append, List.not_mem_nil,
          reduceCtorEq, or_false, false_or] at hf
        rcases hf with ⟨_, hf⟩ | hf
        · exact ⟨"Bot".toList, _, hf, Or.inl rfl⟩
        · exact ⟨"Bot".toList, _, mem_sendAll _ _ _ _ hf, Or.inl rfl⟩
    | false =>
      by_cases hadmin : s.admin = some ws
      · rw [onMessage_admin_effects lower s ws msg rows hmsg hadmin] at hf
        simp only [List.mem_append, List.mem_singleton, reduceCtorEq, or_false] at hf
        rcases hf with hf | hf
        · exact hrelay msg (mem_sendAll _ _ _ _ hf)
        · exact ⟨"Admin".toList, msg, mem_sendAll _ _ _ _ hf, Or.inr (Or.inl rfl)⟩
      · cases hbot : getBotResponse lower msg (s.usernameOf ws) with
        | some r =>
          rw [onMessage_bot_effects lower s ws msg rows hmsg hadmin r hbot] at hf
          simp only [List.mem_append, List.mem_singleton, reduceCtorEq, or_false] at hf
          rcases hf with hf | hf
          · exact hrelay msg (mem_sendAll _ _ _ _ hf)
          · exact ⟨"Bot".toList, r.drop 5,
              (mem_sendAll _ _ _ _ hf).trans (getBotResponse_label lower msg _ r hbot),
              Or.inl rfl⟩
        | none =>
          rw [onMessage_silent_effects lower s ws msg rows hmsg hadmin hbot] at hf
          cases hcx : isComplexMessage lower msg with
          | false =>
            simp only [hcx, Bool.false_eq_true, if_false, List.append_nil, List.mem_append,
              List.mem_singleton, reduceCtorEq, or_false] at hf
            exact hrelay msg (mem_sendAll _ _ _ _ hf)
          | true =>
            simp only [hcx, if_true, List.mem_append, List.mem_singleton, reduceCtorEq,
              or_false] at hf
            rcases hf with hf | hf | hf
            · exact hrelay msg (mem_sendAll _ _ _ _ hf)
            · exact ⟨"Bot".toList, _, mem_sendAll _ _ _ _ hf, Or.inl rfl⟩
            · cases hadm : s.admin with
              | none =>
                simp only [hadm] at hf
                exact ⟨"Bot".toList, _, mem_sendAll _ _ _ _ hf, Or.inl rfl⟩
              | some a =>
                simp only [hadm] at hf
                split_ifs at hf
                · simp only [List.mem_singleton, Effect.send.injEq] at hf
                  exact ⟨_, msg, hf.2,
                    Or.inr (Or.inr ⟨ws, msg, rows, rfl, Or.inr (Or.inl rfl)⟩)⟩
                · exact ⟨"Bot".toList, _, mem_sendAll _ _ _ _ hf, Or.inl rfl⟩

/-- Witness of C15 (amended): the private escalation of a question of 'ana'
(socket 1) to the admin (socket 0) carries the label 'Mensagem de ana'. -/
theorem frame_form_witness :
    ∃ label text : Str, "Mensagem de ana: servidor caiu?".toList = label ++ ": ".toList ++ text ∧
      (label = "Bot".toList ∨ label = "Admin".toList ∨
        ∃ ws msg rows, Event.message 1 "servidor caiu?".toList [] = Event.message ws msg rows ∧
          (label = (run toLowerCase State.init [Event.connection, Event.connection,
              Event.message 0 "IDENTIFY:ADMIN".toList [],
              Event.message 1 "IDENTIFY:ana".toList []]).usernameOf ws ∨
            label = "Mensagem de ".toList ++
              (run toLowerCase State.init [Event.connection, Event.connection,
                Event.message 0 "IDENTIFY:ADMIN".toList [],
                Event.message 1 "IDENTIFY:ana".toList []]).usernameOf ws ∨
            ∃ row ∈ rows, label = row.sender)) :=
  frame_form toLowerCase
    (run toLowerCase State.init [Event.connection, Event.connection,
      Event.message 0 "IDENTIFY:ADMIN".toList [], Event.message 1 "IDENTIFY:ana".toList []])
    (Event.message 1 "servidor caiu?".toList []) 0 "Mensagem de ana: servidor caiu?".toList
    (by decide)

/-- Counterexample to C15 as stated.  The private escalation of a question of
'ana' is the frame 'Mensagem de ana: servidor caiu?', which starts with none of
'Bot: ', 'Admin: ' and 'ana: '; and the replay of the row ('ana', 'bom dia',
'user') to a new admin is the frame 'user: bom dia', which starts with none of
'Bot: ', 'Admin: ', 'ana: ' and 'Usuário Anônimo: '. -/
theorem frame_form_counterexample :
    (Effect.send 0 "Mensagem de ana: servidor caiu?".toList ∈
        (step toLowerCase
          (run toLowerCase State.init [Event.connection, Event.connection,
            Event.message 0 "IDENTIFY:ADMIN".toList [], Event.message 1 "IDENTIFY:ana".toList []])
          (Event.message 1 "servidor caiu?".toList [])).2 ∧
      startsWith "Mensagem de ana: servidor caiu?".toList "Bot: ".toList = false ∧
      startsWith "Mensagem de ana: servidor caiu?".toList "Admin: ".toList = false ∧
      startsWith "Mensagem de ana: servidor caiu?".toList "ana: ".toList = false) ∧
    (Effect.send 0 "user: bom dia".toList ∈
        (step toLowerCase (run toLowerCase State.init [Event.connection])
          (Event.message 0 "IDENTIFY:ADMIN".toList
            [{ username := "ana".toList, message := "bom dia".toList, sender := "user".toList,
               timestamp := "2024-01-01 10:00:00".toList }])).2 ∧
      startsWith "user: bom dia".toList "Bot: ".toList = false ∧
      startsWith "user: bom dia".toList "Admin: ".toList = false ∧
      startsWith "user: bom dia".toList "ana: ".toList = false ∧
      startsWith "user: bom dia".toList "Usuário Anônimo: ".toList = false) := by
  decide

end Aula
